import Mathlib

/-!
# nexus: host map, outbound controller and TUN device

A shallow embedding of `host/hostmap.go`, `controllers/outbound_controller.go` and
`tun/tun_linux.go`.

Conventions of the embedding

* A byte slice is a `List Nat`; a byte is a number below 256.
* `api.VpnIp` is a `uint32`, carried as a `Nat`.
* A Go `map[K]*V` is a partial function `K → Option V` giving the record an entry points
  to; every entry owns its own record (`AddHost` and `UpdateHost` allocate a fresh `HostInfo`
  for every key they create).
* The `HostInfo` records also live in a store indexed by addresses, and the host map knows
  the address of the record of each entry, so that a `*HostInfo` kept outside the map (the
  lighthouse list of the controller) sees what `UpdateHost` later writes into the record, and
  keeps the old record when the entry is replaced or deleted.
* A nil pointer is `none`.
* Locks and the logger have no functional effect and are left out.
-/

namespace Nexus

/-! ## host/hostmap.go -/

/-- The type `api.VpnIp`, a 32-bit unsigned integer. -/
abbrev VpnIp := Nat

/-- The type `udp.Addr`: an IP (byte slice) and a 16-bit port. -/
structure Addr where
  IP : List Nat
  Port : Nat
deriving DecidableEq, Repr

/-- The type `host.RemoteList` (its lock left out): the slice `addrs`, nil being `[]`. -/
structure RemoteList where
  addrs : List Addr
deriving DecidableEq, Repr

/-- The type `host.HostInfo`. -/
structure HostInfo where
  Remote : Option Addr
  Remotes : RemoteList
  RemoteIndexId : Nat
  LocalIndexId : Nat
  VpnIp : VpnIp
deriving DecidableEq, Repr

/-- A pointer `*host.HostInfo`: the address of a record in the store. -/
abbrev Ptr := Nat

/-- The zero value of `host.HostInfo`. -/
def HostInfo.zero : HostInfo :=
  { Remote := none, Remotes := { addrs := [] }, RemoteIndexId := 0, LocalIndexId := 0,
    VpnIp := 0 }

/-- The type `host.HostMap`: the four maps of the struct, each entry given by the record it
points to. For `Hosts` the pointers themselves are kept too: `ptr k` is the address that the
entry of `k` holds (when there is one), `heap` is the store of the `HostInfo` records, by
address (an address not yet allocated holds the zero record and no pointer to it exists), and
`next` is the first address not yet allocated. -/
structure HostMap where
  Indexes : Nat → Option HostInfo
  Relays : Nat → Option HostInfo
  RemoteIndexes : Nat → Option HostInfo
  Hosts : VpnIp → Option HostInfo
  ptr : VpnIp → Ptr
  heap : Ptr → HostInfo
  next : Ptr

/-- Function `NewHostMap`: four empty maps; no record is allocated. -/
def NewHostMap : HostMap :=
  { Indexes := fun _ => none
    Relays := fun _ => none
    RemoteIndexes := fun _ => none
    Hosts := fun _ => none
    ptr := fun _ => 0
    heap := fun _ => HostInfo.zero
    next := 0 }

/-- The record at address `p` becomes `v`. -/
def heapSet (heap : Ptr → HostInfo) (p : Ptr) (v : HostInfo) : Ptr → HostInfo :=
  fun x => if x = p then v else heap x

/-- The entry of `k` now holds the address `p`. -/
def ptrSet (ptr : VpnIp → Ptr) (k : VpnIp) (p : Ptr) : VpnIp → Ptr :=
  fun x => if x = k then p else ptr x

/-- The built-in `delete(m, k)` on a Go map. -/
def mapDelete (m : Nat → Option HostInfo) (k : Nat) : Nat → Option HostInfo :=
  fun x => if x = k then none else m x

/-- The assignment `m[k] = v` on a Go map. -/
def mapSet (m : Nat → Option HostInfo) (k : Nat) (v : HostInfo) : Nat → Option HostInfo :=
  fun x => if x = k then some v else m x

/-- Method `HostMap.DeleteHost`. The record the entry pointed to stays in the store. -/
def DeleteHost (hm : HostMap) (vip : VpnIp) : HostMap :=
  { hm with Hosts := mapDelete hm.Hosts vip }

/-- Method `HostMap.UpdateHost`: an existing record keeps everything but `Remote` and is
written in place, at the address the entry holds; a missing one is created at a fresh
address. The port goes through `uint16(udpAddr.Port)`. -/
def UpdateHost (hm : HostMap) (vip : VpnIp) (udpAddr : Addr) : HostMap :=
  match hm.Hosts vip with
  | some hostInfo =>
    let updated : HostInfo :=
      { hostInfo with Remote := some { IP := udpAddr.IP, Port := udpAddr.Port % 65536 } }
    { hm with
      Hosts := mapSet hm.Hosts vip updated
      heap := heapSet hm.heap (hm.ptr vip) updated }
  | none =>
    let created : HostInfo :=
      { Remote := some { IP := udpAddr.IP, Port := udpAddr.Port % 65536 }
        Remotes := { addrs := [] }
        RemoteIndexId := 0
        LocalIndexId := 0
        VpnIp := vip }
    { hm with
      Hosts := mapSet hm.Hosts vip created
      ptr := ptrSet hm.ptr vip hm.next
      heap := heapSet hm.heap hm.next created
      next := hm.next + 1 }

/-- Method `HostMap.AddHost`: the entry is replaced by a fresh record, at a fresh address;
the record the entry pointed to before stays in the store as it is. -/
def AddHost (hm : HostMap) (vpnIP : VpnIp) (udpAddr : Addr) : HostMap :=
  let created : HostInfo :=
    { Remote := some { IP := udpAddr.IP, Port := udpAddr.Port }
      Remotes := { addrs := [] }
      RemoteIndexId := 0
      LocalIndexId := 0
      VpnIp := vpnIP }
  { hm with
    Hosts := mapSet hm.Hosts vpnIP created
    ptr := ptrSet hm.ptr vpnIP hm.next
    heap := heapSet hm.heap hm.next created
    next := hm.next + 1 }

/-- Method `HostMap.queryVpnIp`. -/
def queryVpnIp (hm : HostMap) (vpnIp : VpnIp) : Option HostInfo :=
  match hm.Hosts vpnIp with
  | some h => some h
  | none => none

/-- Method `HostMap.QueryVpnIp`. -/
def QueryVpnIp (hm : HostMap) (vpnIp : VpnIp) : Option HostInfo :=
  queryVpnIp hm vpnIp

/-- Method `HostInfo.GetRemoteAddrList`. -/
def HostInfo.GetRemoteAddrList (h : HostInfo) : List Addr :=
  match h.Remote with
  | some r => [r]
  | none => h.Remotes.addrs

/-- The pointer that `QueryVpnIp` returns: the address held by the entry, nil without an
entry. -/
def QueryVpnIpPtr (hm : HostMap) (vpnIp : VpnIp) : Option Ptr :=
  match QueryVpnIp hm vpnIp with
  | some _ => some (hm.ptr vpnIp)
  | none => none

/-- The host map keeps its two views of `Hosts` in step: the record of every entry is the
one stored at the address the entry holds, that address is allocated, and no two entries
hold the same address. -/
def HostMap.InStep (hm : HostMap) : Prop :=
  (∀ k hostInfo, hm.Hosts k = some hostInfo →
    hm.heap (hm.ptr k) = hostInfo ∧ hm.ptr k < hm.next)
  ∧ (∀ k1 k2 h1 h2, hm.Hosts k1 = some h1 → hm.Hosts k2 = some h2 →
    hm.ptr k1 = hm.ptr k2 → k1 = k2)

/-- Method `HostMap.GetRemoteAddrList` (a nil slice is `[]`). -/
def GetRemoteAddrList (hm : HostMap) (vpnIP : VpnIp) : List Addr :=
  match hm.Hosts vpnIP with
  | some hostInfo => hostInfo.GetRemoteAddrList
  | none => []

/-! ## Wire codec

The packages `transport/protocol/udp/header`, `transport/packet`, `utils` and `api` are not
part of the sources at hand; what the controller uses of them is modelled from the
specification (section 4.1, section 4.7 and the data model). -/

/-- Errors returned by the modelled code. `hostNotFound vip` is
`fmt.Errorf("host %s not found", vip)`; `device c` is a failure reported by the socket. -/
inductive Err where
  | ShortPacket
  | BadHeader
  | hostNotFound (vip : VpnIp)
  | device (code : Nat)
deriving DecidableEq, Repr

/-- Big-endian bytes of a 32-bit value. -/
def be32 (n : Nat) : List Nat :=
  [n / 16777216 % 256, n / 65536 % 256, n / 256 % 256, n % 256]

/-- Big-endian bytes of a 64-bit value. -/
def be64 (n : Nat) : List Nat :=
  be32 (n / 4294967296) ++ be32 n

/-- The number a big-endian byte string stands for. -/
def beNat (bs : List Nat) : Nat :=
  bs.foldl (fun acc b => acc * 256 + b) 0

/-- The slice expression `b[lo:hi]`. -/
def slice (b : List Nat) (lo hi : Nat) : List Nat :=
  (b.drop lo).take (hi - lo)

namespace header

/-- Modelled from the spec: `header.Len`, the fixed 16-byte framing header. -/
def Len : Nat := 16

/-- Modelled from the spec: the only accepted value of the Version byte. -/
def Version : Nat := 1

/-- Modelled from the spec: MessageType 0. -/
def Handshake : Nat := 0

/-- Modelled from the spec: MessageType 1. -/
def Message : Nat := 1

/-- Modelled from the spec: MessageType 2. -/
def LightHouse : Nat := 2

/-- Modelled from the spec: MessageType 3. -/
def Test : Nat := 3

/-- Modelled from the spec: handshake subtype 0x01, the host-sync request. -/
def HostSync : Nat := 1

/-- Modelled from the spec: handshake subtype 0x02, the host-sync reply. -/
def HostSyncReply : Nat := 2

/-- Modelled from the spec: the fields of the framing header `header.Header`. -/
structure Header where
  Version : Nat
  MessageType : Nat
  MessageSubtype : Nat
  Reserved : Nat
  RemoteIndex : Nat
  Counter : Nat
deriving DecidableEq, Repr

/-- Modelled from the spec: header encoding, total; one byte each for Version, MessageType,
MessageSubtype and Reserved, then RemoteIndex (4 bytes) and Counter (8 bytes), big-endian. -/
def Encode (h : Header) : List Nat :=
  [h.Version % 256, h.MessageType % 256, h.MessageSubtype % 256, h.Reserved % 256]
    ++ be32 h.RemoteIndex ++ be64 h.Counter

/-- Modelled from the spec: `Header.Decode`. Fewer than 16 bytes is `ShortPacket`; a Version
other than 1 or a non-zero Reserved byte is `BadHeader`. -/
def Decode (b : List Nat) : Except Err Header :=
  if b.length < Len then .error Err.ShortPacket
  else if b.getD 0 0 ≠ Version then .error Err.BadHeader
  else if b.getD 3 0 ≠ 0 then .error Err.BadHeader
  else .ok
    { Version := b.getD 0 0
      MessageType := b.getD 1 0
      MessageSubtype := b.getD 2 0
      Reserved := b.getD 3 0
      RemoteIndex := beNat (slice b 4 8)
      Counter := beNat (slice b 8 16) }

/-- Modelled from the spec: `header.BuildMessagePacket(remoteIndex, counter)`, the encoded
header of a Message (subtype 0, Reserved 0). Encoding is total, so no error is returned. -/
def BuildMessagePacket (remoteIndex counter : Nat) : Except Err (List Nat) :=
  .ok (Encode
    { Version := Version, MessageType := Message, MessageSubtype := 0, Reserved := 0,
      RemoteIndex := remoteIndex, Counter := counter })

/-- Modelled from the spec: `header.BuildHandshakePacket(remoteIndex, subtype, counter)`, the
encoded header of a Handshake with the given subtype. -/
def BuildHandshakePacket (remoteIndex subtype counter : Nat) : Except Err (List Nat) :=
  .ok (Encode
    { Version := Version, MessageType := Handshake, MessageSubtype := subtype, Reserved := 0,
      RemoteIndex := remoteIndex, Counter := counter })

end header

namespace packet

/-- Modelled from the spec: IPv4 protocol byte of ICMP. -/
def ProtoICMP : Nat := 1

/-- Modelled from the spec: IPv4 protocol byte of UDP. -/
def ProtoUDP : Nat := 17

/-- Modelled from the spec: what the parser extracts into `packet.Packet`; with `incoming`
the remote IP is the inner source, otherwise the inner destination. -/
structure Packet where
  LocalIP : VpnIp
  RemoteIP : VpnIp
  Protocol : Nat
deriving DecidableEq, Repr

/-- Modelled from the spec: `packet.BuildIPv4Packet(src, dst, proto, _)`, a 20-byte IPv4
header: version 4 with header length 5, total length 20, the protocol byte at offset 9, the
source at 12..15 and the destination at 16..19. The bytes the spec leaves open are zero. -/
def BuildIPv4Packet (src dst : List Nat) (proto : Nat) (_flag : Bool) :
    Except Err (List Nat) :=
  .ok ([69, 0, 0, 20, 0, 0, 0, 0, 0, proto % 256, 0, 0] ++ src.take 4 ++ dst.take 4)

end packet

/-- Modelled from the spec: the 4-byte IPv4 form of a VPN IP (`VpnIp.ToIP`), big-endian. -/
def VpnIp.ToIP (v : VpnIp) : List Nat := be32 v

/-- Inner IPv4 source address of a packet: bytes 12..15. -/
def ipv4Src (data : List Nat) : VpnIp := beNat (slice data 12 16)

/-- Inner IPv4 destination address of a packet: bytes 16..19. -/
def ipv4Dst (data : List Nat) : VpnIp := beNat (slice data 16 20)

namespace utils

/-- Modelled from the spec: `utils.ParsePacket(data, incoming, pk)`. The payload must hold a
20-byte IPv4 header; the parser extracts source, destination and the protocol byte, and
`incoming` decides which address is the remote one. `none` is the returned error. -/
def ParsePacket (data : List Nat) (incoming : Bool) : Option packet.Packet :=
  if data.length < 20 then none
  else if incoming then
    some { RemoteIP := ipv4Src data, LocalIP := ipv4Dst data, Protocol := data.getD 9 0 }
  else
    some { LocalIP := ipv4Src data, RemoteIP := ipv4Dst data, Protocol := data.getD 9 0 }

end utils

/-! ## controllers/outbound_controller.go -/

/-- The socket `udp.Conn` as the controller uses it: the error `WriteTo` returns for a
datagram and a destination (`none` is a nil error), and the result of `LocalAddr` (the
socket answers every call of it alike). -/
structure Conn where
  WriteTo : List Nat → Option Addr → Option Err
  LocalAddr : Except Err Addr

/-- Library calls whose code is outside the sources at hand, taken as parameters:
`net.ParseIP`, `net.ResolveUDPAddr("udp", _)` (its port is an `int`), `api.Ip2VpnIp`,
`api.ParseVpnIp`, `json.Marshal` of the `Hosts` map (a failed encoding yields the nil slice)
and `json.Unmarshal` into a `map[api.VpnIp]*host.HostInfo`. -/
structure Env where
  ParseIP : String → Option (List Nat)
  ResolveUDPAddr : String → Option Addr
  Ip2VpnIp : List Nat → VpnIp
  ParseVpnIp : String → Option VpnIp
  Marshal : (VpnIp → Option HostInfo) → List Nat
  Unmarshal : List Nat → Option (VpnIp → Option HostInfo)

/-- The part `cfg.Listen` of the configuration. -/
structure ListenConfig where
  Port : Nat

/-- The part `cfg.Lighthouse` of the configuration. -/
structure LighthouseConfig where
  Hosts : List String

/-- The configuration fields the controller reads. `StaticHostMap` is a Go
`map[string][]string`: its entries are listed in the order the `range` loop visits them,
with pairwise different keys. -/
structure Config where
  Listen : ListenConfig
  StaticHostMap : List (String × List String)
  Lighthouse : LighthouseConfig

/-- The type `controllers.OutboundController`. The lighthouse list holds `*host.HostInfo`
pointers: addresses into the store of the host map. -/
structure OutboundController where
  outside : Conn
  hosts : HostMap
  lighthouses : List (Option Ptr)
  localVpnIP : VpnIp
  cfg : Config

/-- What the controller does to the outside world, in order: a datagram handed to
`oc.outside.WriteTo`, a packet handed to the TUN writer `internalWriter.Write`, a request
handed to `oc.lighthouse.HandleRequest`. -/
inductive Event where
  | udpWrite (p : List Nat) (addr : Option Addr)
  | tunWrite (p : List Nat)
  | lighthouseRequest (addr : Addr) (vpnIp : VpnIp) (h : header.Header) (p : List Nat)
deriving DecidableEq, Repr

/-- Outcome of a call that returns an `error`: the controller afterwards, the events it
caused and the returned error (`none` is nil). -/
structure Result where
  oc : OutboundController
  events : List Event
  err : Option Err

/-- The `range oc.lighthouses` loop of `WriteToVIP`: the first non-nil lighthouse gets the
datagram, at the `Remote` its record holds when the call is made; with none, the host is
reported as not found. -/
def writeToLighthouse (oc : OutboundController) (p : List Nat) (vip : VpnIp) :
    List (Option Ptr) → Result
  | [] => { oc := oc, events := [], err := some (Err.hostNotFound vip) }
  | none :: rest => writeToLighthouse oc p vip rest
  | some lighthouse :: _ =>
    { oc := oc
      events := [Event.udpWrite p (oc.hosts.heap lighthouse).Remote]
      err := oc.outside.WriteTo p (oc.hosts.heap lighthouse).Remote }

/-- Method `OutboundController.WriteToVIP`. -/
def WriteToVIP (oc : OutboundController) (p : List Nat) (vip : VpnIp) : Result :=
  match header.BuildMessagePacket 9527 111 with
  | .error err => { oc := oc, events := [], err := some err }
  | .ok messagePacket =>
    let p := messagePacket ++ p
    match QueryVpnIp oc.hosts vip with
    | none => writeToLighthouse oc p vip oc.lighthouses
    | some host =>
      { oc := oc
        events := [Event.udpWrite p host.Remote]
        err := oc.outside.WriteTo p host.Remote }

/-- One round of the loop of `configureStaticHostMap` on the entry `(k, v)`; `none` is the
run-time panic of `v[0]` on an empty list. -/
def configureStaticHost (env : Env) (hosts : HostMap) (kv : String × List String) :
    Option HostMap :=
  match env.ParseIP kv.1 with
  | none => some hosts
  | some ip =>
    match kv.2 with
    | [] => none
    | v0 :: _ =>
      match env.ResolveUDPAddr v0 with
      | none => some hosts
      | some udpAddr =>
        some (AddHost hosts (env.Ip2VpnIp ip) { IP := udpAddr.IP, Port := udpAddr.Port % 65536 })

/-- The loop of `configureStaticHostMap` over the entries in iteration order. -/
def configureStaticHosts (env : Env) : HostMap → List (String × List String) → Option HostMap
  | hosts, [] => some hosts
  | hosts, kv :: rest =>
    match configureStaticHost env hosts kv with
    | none => none
    | some hosts1 => configureStaticHosts env hosts1 rest

/-- Method `OutboundController.configureStaticHostMap`; `none` is a panic. -/
def configureStaticHostMap (env : Env) (oc : OutboundController) : Option OutboundController :=
  match configureStaticHosts env oc.hosts oc.cfg.StaticHostMap with
  | none => none
  | some hosts => some { oc with hosts := hosts }

/-- The loop of `getLighthouses`, `lighthouses` being the slice built so far: the pointer
that `QueryVpnIp` returns is appended, not a copy of the record. -/
def getLighthousesLoop (env : Env) (hosts : HostMap) :
    List String → List (Option Ptr) → List (Option Ptr)
  | [], lighthouses => lighthouses
  | ip :: rest, lighthouses =>
    match env.ParseVpnIp ip with
    | none => getLighthousesLoop env hosts rest lighthouses
    | some vpnIp =>
      match QueryVpnIpPtr hosts vpnIp with
      | some host => getLighthousesLoop env hosts rest (lighthouses ++ [some host])
      | none => getLighthousesLoop env hosts rest lighthouses

/-- Method `OutboundController.getLighthouses`. -/
def getLighthouses (env : Env) (oc : OutboundController) : List (Option Ptr) :=
  getLighthousesLoop env oc.hosts oc.cfg.Lighthouse.Hosts []

/-- Method `OutboundController.Start`; `none` is a panic. -/
def Start (env : Env) (oc : OutboundController) : Option Result :=
  let listened : Except Err OutboundController :=
    if oc.cfg.Listen.Port = 0 then
      match oc.outside.LocalAddr with
      | .error err => .error err
      | .ok uPort => .ok { oc with cfg := { oc.cfg with Listen := { Port := uPort.Port } } }
    else .ok oc
  match listened with
  | .error err => some { oc := oc, events := [], err := some err }
  | .ok oc1 =>
    match configureStaticHostMap env oc1 with
    | none => none
    | some oc2 =>
      let oc3 := { oc2 with lighthouses := getLighthouses env oc2 }
      match oc3.outside.LocalAddr with
      | .error err => some { oc := oc3, events := [], err := some err }
      | .ok _ => some { oc := oc3, events := [], err := none }

/-- Modelled from the spec: `parseIP(v.String())`, the dotted-quad text of a VPN IP parsed
back by `net.ParseIP` and cut to four bytes by `To4`: the big-endian bytes of `v`. -/
def parseIPString (v : VpnIp) : List Nat := VpnIp.ToIP v

/-- The built-in `copy(out[lo:hi], src)`, as the slice `out` afterwards. -/
def copyInto (out : List Nat) (lo hi : Nat) (src : List Nat) : List Nat :=
  out.take lo ++ src.take (hi - lo) ++ out.drop (lo + min (hi - lo) src.length)

/-- Function `replaceAddresses`: the local IP goes to bytes 12..15, the remote IP to bytes 16..19. -/
def replaceAddresses (out : List Nat) (localIP remoteIP : VpnIp) : List Nat :=
  copyInto (copyInto out 12 16 (parseIPString localIP)) 16 20 (parseIPString remoteIP)

/-- Method `OutboundController.buildHandshakeHostSyncReplyPacket`. -/
def buildHandshakeHostSyncReplyPacket (oc : OutboundController) (vip : VpnIp)
    (data : List Nat) : Except Err (List Nat) :=
  match header.BuildHandshakePacket 0 header.HostSyncReply 0 with
  | .error err => .error err
  | .ok handshakePacket =>
    match packet.BuildIPv4Packet (VpnIp.ToIP oc.localVpnIP) (VpnIp.ToIP vip)
        packet.ProtoUDP false with
    | .error err => .error err
    | .ok pv4Packet => .ok (handshakePacket ++ pv4Packet ++ data)

/-- Method `OutboundController.handleHandshake`. In the `HostSyncReply` case the decoded directory is
only printed. (`p[header.Len+20:]` is in range: `handlePacket` calls this after a successful
`ParsePacket`, that is with at least 36 bytes.) -/
def handleHandshake (env : Env) (oc : OutboundController) (addr : Addr)
    (pk : packet.Packet) (h : header.Header) (p : List Nat) :
    OutboundController × List Event :=
  let oc1 := { oc with hosts := AddHost oc.hosts pk.RemoteIP addr }
  if h.MessageSubtype = header.HostSync then
    let hp := env.Marshal oc1.hosts.Hosts
    match buildHandshakeHostSyncReplyPacket oc1 pk.RemoteIP hp with
    | .error _ => (oc1, [])
    | .ok replyPacket => (oc1, [Event.udpWrite replyPacket (some addr)])
  else if h.MessageSubtype = header.HostSyncReply then
    let p := p.drop (header.Len + 20)
    match env.Unmarshal p with
    | none => (oc1, [])
    | some _hs => (oc1, [])
  else (oc1, [])

/-- Method `OutboundController.updateRemotes`: the port goes through `int(addr.Port)`. -/
def updateRemotes (oc : OutboundController) (pk : packet.Packet) (addr : Addr) :
    OutboundController :=
  let udpAddr : Addr := { IP := addr.IP, Port := addr.Port }
  { oc with hosts := UpdateHost oc.hosts pk.RemoteIP udpAddr }

/-- Method `OutboundController.handleLocalVpnAddress`: one write to the TUN writer. -/
def handleLocalVpnAddress (p : List Nat) (_pk : packet.Packet) : List Event :=
  [Event.tunWrite p]

/-- Method `OutboundController.handleLighthouses`. -/
def handleLighthouses (addr : Addr) (pk : packet.Packet) (h : header.Header)
    (p : List Nat) : List Event :=
  [Event.lighthouseRequest addr pk.LocalIP h p]

/-- Method `OutboundController.handlePacket` on the datagram `p` received from `addr`: the
controller afterwards and the events caused, in order. -/
def handlePacket (env : Env) (oc : OutboundController) (addr : Addr) (p : List Nat) :
    OutboundController × List Event :=
  match header.Decode p with
  | .error _ => (oc, [])
  | .ok h =>
    match utils.ParsePacket (p.drop header.Len) true with
    | none => (oc, [])
    | some pk =>
      if h.MessageType = header.Handshake then
        handleHandshake env oc addr pk h p
      else if h.MessageType = header.Message then
        let out := p
        let p := p.drop header.Len
        if pk.RemoteIP = oc.localVpnIP then
          let p := replaceAddresses p pk.LocalIP pk.RemoteIP
          (oc, handleLocalVpnAddress p pk)
        else
          let bounced : List Event :=
            if oc.localVpnIP = pk.LocalIP then
              (if pk.Protocol ≠ packet.ProtoICMP then handleLocalVpnAddress p pk else [])
                ++ [Event.udpWrite out (some addr)]
            else []
          (updateRemotes oc pk addr, bounced)
      else if h.MessageType = header.LightHouse then
        (oc, handleLighthouses addr pk h p)
      else (oc, [])

/-! ## Scenario values

Concrete values for the scenarios of the specification: the node is `10.0.0.2`, the
lighthouse `10.0.0.1` is reachable at `1.1.1.1:4242`, the peer `10.0.0.5` at `2.2.2.2:4242`.
-/

/-- The VPN IP `10.0.0.1`. -/
def ip10_0_0_1 : VpnIp := 167772161

/-- The VPN IP `10.0.0.2`. -/
def ip10_0_0_2 : VpnIp := 167772162

/-- The VPN IP `10.0.0.5`. -/
def ip10_0_0_5 : VpnIp := 167772165

/-- The VPN IP `10.0.0.9`. -/
def ip10_0_0_9 : VpnIp := 167772169

/-- The UDP address `1.1.1.1:4242`. -/
def addr1 : Addr := { IP := [1, 1, 1, 1], Port := 4242 }

/-- The UDP address `2.2.2.2:4242`. -/
def addr2 : Addr := { IP := [2, 2, 2, 2], Port := 4242 }

/-- A socket bound to `0.0.0.0:4242` whose writes succeed. -/
def scenarioConn : Conn :=
  { WriteTo := fun _ _ => none
    LocalAddr := .ok { IP := [0, 0, 0, 0], Port := 4242 } }

/-- The directory of scenario S3: `10.0.0.5` is at `2.2.2.2:4242`. -/
def scenarioDirectory : VpnIp → Option HostInfo :=
  fun k =>
    if k = ip10_0_0_5 then
      some { Remote := some addr2, Remotes := { addrs := [] }, RemoteIndexId := 0,
             LocalIndexId := 0, VpnIp := ip10_0_0_5 }
    else none

/-- The bytes standing for the encoded directory of scenario S3. -/
def scenarioBlob : List Nat := [100, 105, 114]

/-- The library calls on the strings and blobs of the scenarios. `net.ParseIP` reads both
the dotted form `10.0.0.1` and the IPv4-mapped form `::ffff:10.0.0.1` as the same 16-byte
address; `api.Ip2VpnIp` takes the last four bytes. -/
def scenarioEnv : Env :=
  { ParseIP := fun s =>
      if s = "10.0.0.1" ∨ s = "::ffff:10.0.0.1" then
        some [0, 0, 0, 0, 0, 0, 0, 0, 0, 0, 255, 255, 10, 0, 0, 1]
      else none
    ResolveUDPAddr := fun s =>
      if s = "1.1.1.1:4242" then some addr1
      else if s = "2.2.2.2:4242" then some addr2
      else none
    Ip2VpnIp := fun ip => beNat (ip.drop (ip.length - 4))
    ParseVpnIp := fun s => if s = "10.0.0.1" then some ip10_0_0_1 else none
    Marshal := fun _ => scenarioBlob
    Unmarshal := fun b => if b = scenarioBlob then some scenarioDirectory else none }

/-- The controller of node `10.0.0.2` with an empty host map and no lighthouse. -/
def scenarioController : OutboundController :=
  { outside := scenarioConn
    hosts := NewHostMap
    lighthouses := []
    localVpnIP := ip10_0_0_2
    cfg := { Listen := { Port := 4242 }, StaticHostMap := [], Lighthouse := { Hosts := [] } } }

/-- An IPv4 packet of 28 bytes: a 20-byte header with the given protocol, source and
destination, and 8 bytes of payload. -/
def scenarioIPv4 (proto : Nat) (src dst : VpnIp) : List Nat :=
  [69, 0, 0, 28, 0, 0, 0, 0, 64, proto, 0, 0] ++ be32 src ++ be32 dst
    ++ [16, 146, 16, 146, 0, 8, 0, 0]

/-- A Message datagram: the 16-byte header (version 1, type Message) and an inner packet. -/
def scenarioMessage (proto : Nat) (src dst : VpnIp) : List Nat :=
  [1, 1, 0, 0, 0, 0, 0, 0, 0, 0, 0, 0, 0, 0, 0, 1] ++ scenarioIPv4 proto src dst

/-- The host-sync request as the specification defines it: the 16-byte header alone
(version 1, type Handshake, subtype HostSync). -/
def scenarioHostSync : List Nat :=
  [1, 0, 1, 0, 0, 0, 0, 0, 0, 0, 0, 0, 0, 0, 0, 0]

/-- A host-sync request that carries an IPv4 packet naming its sender `src`. -/
def scenarioHostSyncFrom (src dst : VpnIp) : List Nat :=
  scenarioHostSync ++ scenarioIPv4 packet.ProtoUDP src dst

/-- The host-sync reply of scenario S3, sent by the lighthouse `10.0.0.1` to `10.0.0.2`:
the header (type Handshake, subtype HostSyncReply), the 20-byte IPv4 stub and the directory
blob. -/
def scenarioHostSyncReply : List Nat :=
  [1, 0, 2, 0, 0, 0, 0, 0, 0, 0, 0, 0, 0, 0, 0, 0]
    ++ ([69, 0, 0, 20, 0, 0, 0, 0, 0, 17, 0, 0] ++ be32 ip10_0_0_1 ++ be32 ip10_0_0_2)
    ++ scenarioBlob

/-- The controller of scenario S1 before `Start`: the static host map lists the lighthouse
`10.0.0.1` at `1.1.1.1:4242`. -/
def bootstrapController : OutboundController :=
  { scenarioController with
    cfg := { Listen := { Port := 4242 }
             StaticHostMap := [("10.0.0.1", ["1.1.1.1:4242"])]
             Lighthouse := { Hosts := ["10.0.0.1"] } } }

/-- The controller of scenario S1 after its static host map was configured. -/
def configuredController : OutboundController :=
  { bootstrapController with hosts := AddHost NewHostMap ip10_0_0_1 addr1 }

/-- The controller of scenario S1 after `Start`. -/
def startedController : OutboundController :=
  { configuredController with
    lighthouses := getLighthouses scenarioEnv configuredController }

/-- The UDP address `3.3.3.3:5555`. -/
def addr3 : Addr := { IP := [3, 3, 3, 3], Port := 5555 }

/-- The controller of scenario S1 after `Start` and after it received, from `3.3.3.3:5555`,
a Message whose inner packet goes from the lighthouse `10.0.0.1` to `10.0.0.5`. -/
def learnedController : OutboundController :=
  (handlePacket scenarioEnv startedController addr3
    (scenarioMessage packet.ProtoUDP ip10_0_0_1 ip10_0_0_5)).1

/-- The controller of scenario S1 after `Start` and after it received, from `3.3.3.3:5555`,
a host-sync request of `10.0.0.1`, on which `AddHost` replaces the entry of `10.0.0.1` by a
fresh record. -/
def replacedController : OutboundController :=
  (handlePacket scenarioEnv startedController addr3
    (scenarioHostSyncFrom ip10_0_0_1 ip10_0_0_2)).1

/-- A controller whose static host map names the VPN IP `10.0.0.1` under two keys, the
dotted form and the IPv4-mapped form, visited in this order. -/
def twoKeysController : OutboundController :=
  { scenarioController with
    cfg := { Listen := { Port := 4242 }
             StaticHostMap :=
               [("10.0.0.1", ["1.1.1.1:4242"]), ("::ffff:10.0.0.1", ["2.2.2.2:4242"])]
             Lighthouse := { Hosts := [] } } }

/-! ## Sequences of host map calls -/

/-- One call of a mutator of the host map. -/
inductive HostOp where
  | add (vip : VpnIp) (addr : Addr)
  | update (vip : VpnIp) (addr : Addr)
  | delete (vip : VpnIp)
deriving DecidableEq, Repr

/-- The host map after one mutator call. -/
def HostOp.run (hm : HostMap) : HostOp → HostMap
  | .add vip addr => AddHost hm vip addr
  | .update vip addr => UpdateHost hm vip addr
  | .delete vip => DeleteHost hm vip

/-- The host map after a finite sequence of mutator calls, first call first. -/
def runHostOps (hm : HostMap) (ops : List HostOp) : HostMap :=
  ops.foldl HostOp.run hm

/-! ## tun/tun_linux.go -/

namespace tun

/-- The constant `DefaultMTU`. -/
def DefaultMTU : Int := 1300

/-- Errors of the TUN device: `io.ErrUnexpectedEOF` and a system call's `errno`. -/
inductive TunErr where
  | ErrUnexpectedEOF
  | errno (code : Nat)
deriving DecidableEq, Repr

/-- The type `net.IPNet`. -/
structure IPNet where
  IP : List Nat
  Mask : List Nat
deriving DecidableEq, Repr

/-- The fields of `Route` (declared elsewhere in the package) that this file reads. -/
structure Route where
  MTU : Int
  Metric : Int
  Install : Bool
deriving DecidableEq, Repr

/-- The type `tun` (the open file and the `ifra` scratch request left out). A field that
is not assigned holds the zero value of its type. -/
structure Tun where
  fd : Int
  device : String
  addr : List Nat
  mask : List Nat
  defaultMTU : Int
  cidr : IPNet
  Routes : List Route
  MaxMTU : Int
  DefaultMTU : Int
  TXQueueLen : Int
deriving DecidableEq, Repr

/-- The system calls of `newTun`: `unix.Open` on `/dev/net/tun`, and the `TUNSETIFF` ioctl,
which for a descriptor, the request flags and the requested name answers with the name the
kernel leaves in the request. -/
structure Kernel where
  openTun : Except TunErr Int
  setIff : Int → Nat → String → Except TunErr String

/-- The flag `unix.IFF_TUN`. -/
def IFF_TUN : Nat := 1

/-- The flag `unix.IFF_NO_PI`. -/
def IFF_NO_PI : Nat := 4096

/-- The flag `unix.IFF_MULTI_QUEUE`. -/
def IFF_MULTI_QUEUE : Nat := 256

/-- Function `newTun`. The name is cut to the 16 bytes of `req.Name`. -/
def newTun (kernel : Kernel) (deviceName : String) (cidr : IPNet) (defaultMTU : Int)
    (txQueueLen : Int) (multiqueue : Bool) : Except TunErr Tun :=
  match kernel.openTun with
  | .error err => .error err
  | .ok fd =>
    let flags := if multiqueue then IFF_TUN ||| IFF_NO_PI ||| IFF_MULTI_QUEUE
      else IFF_TUN ||| IFF_NO_PI
    match kernel.setIff fd flags (deviceName.take 16) with
    | .error err => .error err
    | .ok name =>
      let defaultMTU := if defaultMTU = 0 then DefaultMTU else defaultMTU
      let maxMTU := defaultMTU
      .ok { fd := fd
            device := name
            addr := [0, 0, 0, 0]
            mask := [0, 0, 0, 0]
            defaultMTU := 0
            cidr := cidr
            Routes := []
            MaxMTU := maxMTU
            DefaultMTU := defaultMTU
            TXQueueLen := txQueueLen }

/-- Method `tun.MTU`. -/
def Tun.MTU (t : Tun) : Int := t.defaultMTU

/-- One call of `unix.Write`: the buffer it was given and the result `(n, err)`. -/
structure SysCall where
  buf : List Nat
  n : Int
  err : Option TunErr
deriving DecidableEq, Repr

/-- How a call of `tun.Write` ends: with a run-time panic (a slice out of range), or by
returning `(nn, err)`; either way after the listed system calls, first call first. -/
inductive WriteRun where
  | panicked (calls : List SysCall)
  | returned (nn : Nat) (err : Option TunErr) (calls : List SysCall)
deriving DecidableEq, Repr

/-- The same end of a call, after one more system call made before the listed ones. -/
def WriteRun.after (call : SysCall) : WriteRun → WriteRun
  | .panicked calls => .panicked (call :: calls)
  | .returned nn err calls => .returned nn err (call :: calls)

/-- The `for` loop of `tun.Write` on the buffer `b`, entered for the `k`-th time with `nn`
bytes written. `sys k buf` is the result of the `k`-th call of `unix.Write`, which is given
`buf`; `none` means that the fuel ran out before the loop ended. -/
def Write.loop (sys : Nat → List Nat → Int × Option TunErr) (b : List Nat) :
    Nat → Nat → Nat → Option WriteRun
  | 0, _, _ => none
  | fuel + 1, k, nn =>
    if b.length < nn then some (.panicked [])
    else
      let res := sys k (slice b nn b.length)
      let call : SysCall := { buf := slice b nn b.length, n := res.1, err := res.2 }
      let nn1 := if 0 < res.1 then nn + res.1.toNat else nn
      if nn1 = b.length then some (.returned nn1 res.2 [call])
      else if res.2 ≠ none then some (.returned nn1 res.2 [call])
      else if res.1 = 0 then some (.returned nn1 (some TunErr.ErrUnexpectedEOF) [call])
      else (Write.loop sys b fuel (k + 1) nn1).map (WriteRun.after call)

/-- Method `tun.Write`, run with the given fuel. -/
def Write (sys : Nat → List Nat → Int × Option TunErr) (b : List Nat) (fuel : Nat) :
    Option WriteRun :=
  Write.loop sys b fuel 0 0

/-- The number of bytes the listed system calls report as written. -/
def written (calls : List SysCall) : Nat :=
  (calls.map (fun c => c.n.toNat)).sum

/-- A kernel that opens descriptor 7 and keeps the requested name. -/
def scenarioKernel : Kernel :=
  { openTun := .ok 7
    setIff := fun _ _ name => .ok name }

/-- The overlay network `10.0.0.2/24`. -/
def scenarioCidr : IPNet := { IP := [10, 0, 0, 2], Mask := [255, 255, 255, 0] }

/-- A `unix.Write` that takes at most two bytes per call and never fails. -/
def twoBytesWrite : Nat → List Nat → Int × Option TunErr :=
  fun _ buf => (((min 2 buf.length : Nat) : Int), none)

/-- A `unix.Write` that takes two bytes on its first call and nothing afterwards, without
ever failing. -/
def stallingWrite : Nat → List Nat → Int × Option TunErr :=
  fun k buf => if k = 0 then (((min 2 buf.length : Nat) : Int), none) else (0, none)

end tun

/-! ## Theorems: the host map -/

theorem mapSet_same (m : Nat → Option HostInfo) (k : Nat) (v : HostInfo) :
    mapSet m k v k = some v := by
  simp [mapSet]

theorem mapSet_other (m : Nat → Option HostInfo) (k x : Nat) (v : HostInfo) (hx : x ≠ k) :
    mapSet m k v x = m x := by
  simp [mapSet, hx]

theorem AddHost_same (hm : HostMap) (vip : VpnIp) (addr : Addr) :
    (AddHost hm vip addr).Hosts vip =
      some { Remote := some addr, Remotes := { addrs := [] }, RemoteIndexId := 0,
             LocalIndexId := 0, VpnIp := vip } := by
  simp [AddHost, mapSet]

theorem AddHost_other (hm : HostMap) (vip k : VpnIp) (addr : Addr) (hk : k ≠ vip) :
    (AddHost hm vip addr).Hosts k = hm.Hosts k := by
  simp [AddHost, mapSet, hk]

/-- C1, counterexample: after `AddHost` on the empty map the entry is there, its `Remotes`
list is empty, and so the entry is not the record whose `Remotes` holds the address. -/
theorem AddHost_remotes_left_empty :
    ((AddHost NewHostMap 167772161 { IP := [1, 1, 1, 1], Port := 4242 }).Hosts 167772161).map
        (fun h => h.Remotes.addrs) = some []
    ∧ (AddHost NewHostMap 167772161 { IP := [1, 1, 1, 1], Port := 4242 }).Hosts 167772161 ≠
        some { Remote := some { IP := [1, 1, 1, 1], Port := 4242 }
               Remotes := { addrs := [{ IP := [1, 1, 1, 1], Port := 4242 }] }
               RemoteIndexId := 0, LocalIndexId := 0, VpnIp := 167772161 } := by
  decide

/-- C1, as amended: for every host map, VPN IP `vip` and address `addr`, after
`AddHost(vip, addr)` the entry `Hosts[vip]` exists and is the record with `VpnIp = vip`,
`Remote = addr` (same IP and port) and an empty `Remotes` list (the index ids are zero),
whether or not `vip` was present before; the address is held by `Remote` alone, and
`GetRemoteAddrList(vip)` returns exactly `[addr]`. -/
theorem AddHost_establishes (hm : HostMap) (vip : VpnIp) (addr : Addr) :
    (AddHost hm vip addr).Hosts vip =
        some { Remote := some addr, Remotes := { addrs := [] }, RemoteIndexId := 0,
               LocalIndexId := 0, VpnIp := vip }
    ∧ QueryVpnIp (AddHost hm vip addr) vip =
        some { Remote := some addr, Remotes := { addrs := [] }, RemoteIndexId := 0,
               LocalIndexId := 0, VpnIp := vip }
    ∧ GetRemoteAddrList (AddHost hm vip addr) vip = [addr] := by
  refine ⟨AddHost_same hm vip addr, ?_, ?_⟩
  · simp [QueryVpnIp, queryVpnIp, AddHost_same]
  · simp [GetRemoteAddrList, AddHost_same, HostInfo.GetRemoteAddrList]

theorem UpdateHost_present (hm : HostMap) (vip : VpnIp) (addr : Addr) (hostInfo : HostInfo)
    (hpresent : hm.Hosts vip = some hostInfo) :
    (UpdateHost hm vip addr).Hosts =
      mapSet hm.Hosts vip { hostInfo with Remote := some ⟨addr.IP, addr.Port % 65536⟩ } := by
  simp [UpdateHost, hpresent]

theorem UpdateHost_absent (hm : HostMap) (vip : VpnIp) (addr : Addr)
    (habsent : hm.Hosts vip = none) :
    (UpdateHost hm vip addr).Hosts =
      mapSet hm.Hosts vip
        { Remote := some ⟨addr.IP, addr.Port % 65536⟩, Remotes := ⟨[]⟩, RemoteIndexId := 0,
          LocalIndexId := 0, VpnIp := vip } := by
  simp [UpdateHost, habsent]

theorem UpdateHost_other (hm : HostMap) (vip k : VpnIp) (addr : Addr) (hk : k ≠ vip) :
    (UpdateHost hm vip addr).Hosts k = hm.Hosts k := by
  cases hcase : hm.Hosts vip with
  | none => rw [UpdateHost_absent hm vip addr hcase]; exact mapSet_other _ _ _ _ hk
  | some hostInfo => rw [UpdateHost_present hm vip addr hostInfo hcase]; exact mapSet_other _ _ _ _ hk

theorem UpdateHost_remote (hm : HostMap) (vip : VpnIp) (addr : Addr)
    (hport : addr.Port < 65536) :
    ∃ hostInfo, (UpdateHost hm vip addr).Hosts vip = some hostInfo ∧
      hostInfo.Remote = some addr := by
  have hp : addr.Port % 65536 = addr.Port := Nat.mod_eq_of_lt hport
  cases hcase : hm.Hosts vip with
  | none =>
    rw [UpdateHost_absent hm vip addr hcase]
    exact ⟨_, mapSet_same _ _ _, by simp [hp]⟩
  | some hostInfo =>
    rw [UpdateHost_present hm vip addr hostInfo hcase]
    exact ⟨_, mapSet_same _ _ _, by simp [hp]⟩

/-- C2: when `vip` is present with record `hostInfo` and `addr` is a UDP address (its port a
`uint16`), `UpdateHost(vip, addr)` leaves at `vip` a record whose `Remote` equals `addr` and
whose `VpnIp`, `Remotes`, `LocalIndexId` and `RemoteIndexId` are those of `hostInfo`; the
entry of every other key of `Hosts` is unchanged, and so are the three reserved maps. -/
theorem UpdateHost_only_mutates_remote (hm : HostMap) (vip : VpnIp) (addr : Addr)
    (hostInfo : HostInfo) (hpresent : hm.Hosts vip = some hostInfo)
    (hport : addr.Port < 65536) :
    (∃ updated, (UpdateHost hm vip addr).Hosts vip = some updated
        ∧ updated.Remote = some addr
        ∧ updated.VpnIp = hostInfo.VpnIp
        ∧ updated.Remotes = hostInfo.Remotes
        ∧ updated.LocalIndexId = hostInfo.LocalIndexId
        ∧ updated.RemoteIndexId = hostInfo.RemoteIndexId)
    ∧ (∀ k, k ≠ vip → (UpdateHost hm vip addr).Hosts k = hm.Hosts k)
    ∧ (UpdateHost hm vip addr).Indexes = hm.Indexes
    ∧ (UpdateHost hm vip addr).RemoteIndexes = hm.RemoteIndexes
    ∧ (UpdateHost hm vip addr).Relays = hm.Relays := by
  have hp : addr.Port % 65536 = addr.Port := Nat.mod_eq_of_lt hport
  have hrest : (UpdateHost hm vip addr).Indexes = hm.Indexes
      ∧ (UpdateHost hm vip addr).RemoteIndexes = hm.RemoteIndexes
      ∧ (UpdateHost hm vip addr).Relays = hm.Relays := by
    simp [UpdateHost, hpresent]
  rw [UpdateHost_present hm vip addr hostInfo hpresent]
  refine ⟨⟨_, mapSet_same _ _ _, ?_, rfl, rfl, rfl, rfl⟩, ?_, hrest⟩
  · simp [hp]
  · intro k hk
    exact mapSet_other _ _ _ _ hk

/-- C2, witness: the host map holding `10.0.0.5` at `1.1.1.1:4242`, updated to
`2.2.2.2:5000`. -/
theorem UpdateHost_only_mutates_remote_witness :
    (∃ updated,
        (UpdateHost (AddHost NewHostMap 167772165 { IP := [1, 1, 1, 1], Port := 4242 })
          167772165 { IP := [2, 2, 2, 2], Port := 5000 }).Hosts 167772165 = some updated
        ∧ updated.Remote = some { IP := [2, 2, 2, 2], Port := 5000 }
        ∧ updated.VpnIp = 167772165
        ∧ updated.Remotes = { addrs := [] }
        ∧ updated.LocalIndexId = 0
        ∧ updated.RemoteIndexId = 0) :=
  (UpdateHost_only_mutates_remote
    (AddHost NewHostMap 167772165 { IP := [1, 1, 1, 1], Port := 4242 })
    167772165 { IP := [2, 2, 2, 2], Port := 5000 }
    { Remote := some { IP := [1, 1, 1, 1], Port := 4242 }, Remotes := { addrs := [] },
      RemoteIndexId := 0, LocalIndexId := 0, VpnIp := 167772165 }
    (by decide) (by decide)).1

/-! ## Theorems: the records behind the host map -/

theorem NewHostMap_inStep : NewHostMap.InStep := by
  constructor
  · intro k hostInfo h
    simp [NewHostMap] at h
  · intro k1 k2 h1 h2 h
    simp [NewHostMap] at h

theorem fresh_entry_inStep (hm : HostMap) (vip : VpnIp) (created : HostInfo)
    (hstep : hm.InStep) :
    HostMap.InStep
      { hm with
        Hosts := mapSet hm.Hosts vip created
        ptr := ptrSet hm.ptr vip hm.next
        heap := heapSet hm.heap hm.next created
        next := hm.next + 1 } := by
  obtain ⟨hrec, hinj⟩ := hstep
  constructor
  · intro k hostInfo hk
    by_cases hkv : k = vip
    · subst hkv
      simp only [mapSet, if_true, Option.some.injEq] at hk
      simp [ptrSet, heapSet, hk]
    · simp only [mapSet, if_neg hkv] at hk
      obtain ⟨h1, h2⟩ := hrec k hostInfo hk
      have hne : hm.ptr k ≠ hm.next := Nat.ne_of_lt h2
      simp only [ptrSet, if_neg hkv, heapSet, if_neg hne]
      exact ⟨h1, Nat.lt_succ_of_lt h2⟩
  · intro k1 k2 h1 h2 hk1 hk2 hp
    by_cases e1 : k1 = vip
    · by_cases e2 : k2 = vip
      · rw [e1, e2]
      · simp only [mapSet, if_neg e2] at hk2
        have hlt := (hrec k2 h2 hk2).2
        simp only [ptrSet, if_pos e1, if_neg e2] at hp
        exact absurd hp.symm (Nat.ne_of_lt hlt)
    · by_cases e2 : k2 = vip
      · simp only [mapSet, if_neg e1] at hk1
        have hlt := (hrec k1 h1 hk1).2
        simp only [ptrSet, if_pos e2, if_neg e1] at hp
        exact absurd hp (Nat.ne_of_lt hlt)
      · simp only [mapSet, if_neg e1] at hk1
        simp only [mapSet, if_neg e2] at hk2
        simp only [ptrSet, if_neg e1, if_neg e2] at hp
        exact hinj k1 k2 h1 h2 hk1 hk2 hp

theorem AddHost_inStep (hm : HostMap) (vip : VpnIp) (addr : Addr) (hstep : hm.InStep) :
    (AddHost hm vip addr).InStep :=
  fresh_entry_inStep hm vip _ hstep

theorem UpdateHost_inStep (hm : HostMap) (vip : VpnIp) (addr : Addr) (hstep : hm.InStep) :
    (UpdateHost hm vip addr).InStep := by
  unfold UpdateHost
  cases hcase : hm.Hosts vip with
  | none => exact fresh_entry_inStep hm vip _ hstep
  | some old =>
    obtain ⟨hrec, hinj⟩ := hstep
    constructor
    · intro k hostInfo hk
      by_cases hkv : k = vip
      · subst hkv
        simp only [mapSet, if_true, Option.some.injEq] at hk
        simp only [heapSet, if_true]
        exact ⟨hk, (hrec k old hcase).2⟩
      · simp only [mapSet, if_neg hkv] at hk
        obtain ⟨h1, h2⟩ := hrec k hostInfo hk
        have hne : hm.ptr k ≠ hm.ptr vip := fun heq =>
          hkv (hinj k vip hostInfo old hk hcase heq)
        simp only [heapSet, if_neg hne]
        exact ⟨h1, h2⟩
    · intro k1 k2 h1 h2 hk1 hk2 hp
      have present : ∀ k h, mapSet hm.Hosts vip
          { old with Remote := some { IP := addr.IP, Port := addr.Port % 65536 } } k = some h →
          ∃ h0, hm.Hosts k = some h0 := by
        intro k h hk
        by_cases hkv : k = vip
        · exact ⟨old, by rw [hkv]; exact hcase⟩
        · simp only [mapSet, if_neg hkv] at hk
          exact ⟨h, hk⟩
      obtain ⟨a1, ha1⟩ := present k1 h1 hk1
      obtain ⟨a2, ha2⟩ := present k2 h2 hk2
      exact hinj k1 k2 a1 a2 ha1 ha2 hp

theorem DeleteHost_inStep (hm : HostMap) (vip : VpnIp) (hstep : hm.InStep) :
    (DeleteHost hm vip).InStep := by
  obtain ⟨hrec, hinj⟩ := hstep
  have present : ∀ k h, mapDelete hm.Hosts vip k = some h → hm.Hosts k = some h := by
    intro k h hk
    by_cases hkv : k = vip
    · simp [mapDelete, hkv] at hk
    · simpa [mapDelete, hkv] using hk
  constructor
  · intro k hostInfo hk
    exact hrec k hostInfo (present k hostInfo hk)
  · intro k1 k2 h1 h2 hk1 hk2 hp
    exact hinj k1 k2 h1 h2 (present k1 h1 hk1) (present k2 h2 hk2) hp

theorem runHostOps_inStep (ops : List HostOp) :
    ∀ hm : HostMap, hm.InStep → (runHostOps hm ops).InStep := by
  induction ops with
  | nil => intro hm h; exact h
  | cons op rest ih =>
    intro hm h
    apply ih
    cases op with
    | add vip addr => exact AddHost_inStep hm vip addr h
    | update vip addr => exact UpdateHost_inStep hm vip addr h
    | delete vip => exact DeleteHost_inStep hm vip h

theorem QueryVpnIpPtr_record (hm : HostMap) (vpnIp : VpnIp) (p : Ptr) (hstep : hm.InStep)
    (hq : QueryVpnIpPtr hm vpnIp = some p) :
    QueryVpnIp hm vpnIp = some (hm.heap p) := by
  unfold QueryVpnIpPtr at hq
  cases hrec : QueryVpnIp hm vpnIp with
  | none => simp [hrec] at hq
  | some hostInfo =>
    simp only [hrec, Option.some.injEq] at hq
    have hh : hm.Hosts vpnIp = some hostInfo := by
      unfold QueryVpnIp queryVpnIp at hrec
      cases hc : hm.Hosts vpnIp with
      | none => simp [hc] at hrec
      | some x => simpa [hc] using hrec
    rw [← hq, (hstep.1 vpnIp hostInfo hh).1]

/-! ## Theorems: the inbound path -/

theorem ParsePacket_incoming (data : List Nat) (pk : packet.Packet)
    (hp : utils.ParsePacket data true = some pk) :
    20 ≤ data.length ∧ pk.RemoteIP = ipv4Src data ∧ pk.LocalIP = ipv4Dst data
      ∧ pk.Protocol = data.getD 9 0 := by
  unfold utils.ParsePacket at hp
  by_cases hlen : data.length < 20
  · simp [hlen] at hp
  · simp [hlen] at hp
    subst hp
    exact ⟨by omega, rfl, rfl, by simp⟩

theorem handlePacket_message (env : Env) (oc : OutboundController) (addr : Addr)
    (p : List Nat) (h : header.Header) (pk : packet.Packet)
    (hd : header.Decode p = .ok h) (ht : h.MessageType = header.Message)
    (hp : utils.ParsePacket (p.drop header.Len) true = some pk) :
    handlePacket env oc addr p =
      if pk.RemoteIP = oc.localVpnIP then
        (oc, [Event.tunWrite (replaceAddresses (p.drop header.Len) pk.LocalIP pk.RemoteIP)])
      else
        (updateRemotes oc pk addr,
          if oc.localVpnIP = pk.LocalIP then
            (if pk.Protocol ≠ packet.ProtoICMP then [Event.tunWrite (p.drop header.Len)]
              else []) ++ [Event.udpWrite p (some addr)]
          else []) := by
  simp [handlePacket, hd, hp, ht, header.Message, header.Handshake, handleLocalVpnAddress]

theorem handlePacket_handshake (env : Env) (oc : OutboundController) (addr : Addr)
    (p : List Nat) (h : header.Header) (pk : packet.Packet)
    (hd : header.Decode p = .ok h) (ht : h.MessageType = header.Handshake)
    (hp : utils.ParsePacket (p.drop header.Len) true = some pk) :
    handlePacket env oc addr p = handleHandshake env oc addr pk h p := by
  simp [handlePacket, hd, hp, ht]

theorem handleHandshake_hosts (env : Env) (oc : OutboundController) (addr : Addr)
    (pk : packet.Packet) (h : header.Header) (p : List Nat) :
    (handleHandshake env oc addr pk h p).1.hosts = AddHost oc.hosts pk.RemoteIP addr
    ∧ (handleHandshake env oc addr pk h p).1.lighthouses = oc.lighthouses := by
  unfold handleHandshake
  dsimp only
  split_ifs
  · split <;> exact ⟨rfl, rfl⟩
  · split <;> exact ⟨rfl, rfl⟩
  · exact ⟨rfl, rfl⟩

theorem handlePacket_hosts (env : Env) (oc : OutboundController) (addr : Addr)
    (p : List Nat) :
    ((handlePacket env oc addr p).1.hosts = oc.hosts
      ∨ (∃ vip, (handlePacket env oc addr p).1.hosts = AddHost oc.hosts vip addr)
      ∨ (∃ vip, (handlePacket env oc addr p).1.hosts = UpdateHost oc.hosts vip addr))
    ∧ (handlePacket env oc addr p).1.lighthouses = oc.lighthouses := by
  unfold handlePacket
  split
  · exact ⟨Or.inl rfl, rfl⟩
  · split
    · exact ⟨Or.inl rfl, rfl⟩
    · rename_i pk _
      split_ifs
      all_goals
        first
          | exact ⟨Or.inl rfl, rfl⟩
          | exact ⟨Or.inr (Or.inr ⟨pk.RemoteIP, rfl⟩), rfl⟩
          | exact ⟨Or.inr (Or.inl ⟨_, (handleHandshake_hosts env oc addr _ _ p).1⟩),
              (handleHandshake_hosts env oc addr _ _ p).2⟩

theorem handlePacket_inStep (env : Env) (oc : OutboundController) (addr : Addr)
    (p : List Nat) (hstep : oc.hosts.InStep) :
    (handlePacket env oc addr p).1.hosts.InStep := by
  rcases (handlePacket_hosts env oc addr p).1 with h | ⟨vip, h⟩ | ⟨vip, h⟩
  · rw [h]; exact hstep
  · rw [h]; exact AddHost_inStep _ _ _ hstep
  · rw [h]; exact UpdateHost_inStep _ _ _ hstep

/-- C4, the code at the failing input: node `10.0.0.2` receives from `2.2.2.2:4242` a Message
whose inner packet goes from `10.0.0.5` to `10.0.0.2`. For a UDP inner packet the TUN writer
gets the packet as it came (source and destination not swapped) and the datagram is sent back
to `2.2.2.2:4242`; for an ICMP inner packet nothing is written to the TUN writer and the
datagram is sent back all the same. -/
theorem handlePacket_local_destination :
    (handlePacket scenarioEnv scenarioController addr2
        (scenarioMessage packet.ProtoUDP ip10_0_0_5 ip10_0_0_2)).2 =
      [Event.tunWrite (scenarioIPv4 packet.ProtoUDP ip10_0_0_5 ip10_0_0_2),
       Event.udpWrite (scenarioMessage packet.ProtoUDP ip10_0_0_5 ip10_0_0_2) (some addr2)]
    ∧ (handlePacket scenarioEnv scenarioController addr2
        (scenarioMessage packet.ProtoICMP ip10_0_0_5 ip10_0_0_2)).2 =
      [Event.udpWrite (scenarioMessage packet.ProtoICMP ip10_0_0_5 ip10_0_0_2) (some addr2)]
    ∧ ipv4Dst (scenarioIPv4 packet.ProtoUDP ip10_0_0_5 ip10_0_0_2) =
        scenarioController.localVpnIP := by
  decide

/-- C5, counterexample: node `10.0.0.2`, with an empty host map, receives from
`2.2.2.2:4242` a valid Message whose inner source is `10.0.0.2` itself; afterwards
`QueryVpnIp(10.0.0.2)` is still absent. -/
theorem handlePacket_own_source_not_learned :
    (header.Decode (scenarioMessage packet.ProtoUDP ip10_0_0_2 ip10_0_0_9)).toOption.map
        (fun h => h.MessageType) = some header.Message
    ∧ (utils.ParsePacket
        ((scenarioMessage packet.ProtoUDP ip10_0_0_2 ip10_0_0_9).drop header.Len) true).map
        (fun pk => pk.RemoteIP) = some ip10_0_0_2
    ∧ QueryVpnIp (handlePacket scenarioEnv scenarioController addr2
        (scenarioMessage packet.ProtoUDP ip10_0_0_2 ip10_0_0_9)).1.hosts ip10_0_0_2 = none := by
  decide

/-- C5, as amended: for every host map, local VPN IP and valid Message datagram received
from the UDP address `srcAddr` (its port a `uint16`) whose inner IPv4 source `srcVip` is not
the local VPN IP (the inner destination is arbitrary and may be the local VPN IP), after
`handlePacket` returns `QueryVpnIp(srcVip)` is present and its `Remote` equals `srcAddr`. -/
theorem handlePacket_learns_remote (env : Env) (oc : OutboundController) (srcAddr : Addr)
    (p : List Nat) (h : header.Header) (pk : packet.Packet) (srcVip : VpnIp)
    (hd : header.Decode p = .ok h) (ht : h.MessageType = header.Message)
    (hp : utils.ParsePacket (p.drop header.Len) true = some pk)
    (hsrc : ipv4Src (p.drop header.Len) = srcVip)
    (hport : srcAddr.Port < 65536)
    (hne : srcVip ≠ oc.localVpnIP) :
    ∃ hostInfo, QueryVpnIp (handlePacket env oc srcAddr p).1.hosts srcVip = some hostInfo
      ∧ hostInfo.Remote = some srcAddr := by
  obtain ⟨_, hremote, _, _⟩ := ParsePacket_incoming _ _ hp
  have hr : pk.RemoteIP = srcVip := hremote.trans hsrc
  have hne2 : pk.RemoteIP ≠ oc.localVpnIP := by rw [hr]; exact hne
  rw [handlePacket_message env oc srcAddr p h pk hd ht hp, if_neg hne2]
  obtain ⟨hostInfo, hq, hrem⟩ := UpdateHost_remote oc.hosts srcVip srcAddr hport
  refine ⟨hostInfo, ?_, hrem⟩
  simp only [updateRemotes, QueryVpnIp, queryVpnIp, hr]
  rw [hq]

/-- C5, witness (amended claim): node `10.0.0.2` receives from `2.2.2.2:4242` a Message from
`10.0.0.5` to `10.0.0.2`. -/
theorem handlePacket_learns_remote_witness :
    ∃ hostInfo, QueryVpnIp (handlePacket scenarioEnv scenarioController addr2
        (scenarioMessage packet.ProtoUDP ip10_0_0_5 ip10_0_0_2)).1.hosts ip10_0_0_5
          = some hostInfo
      ∧ hostInfo.Remote = some addr2 :=
  handlePacket_learns_remote scenarioEnv scenarioController addr2
    (scenarioMessage packet.ProtoUDP ip10_0_0_5 ip10_0_0_2)
    { Version := 1, MessageType := 1, MessageSubtype := 0, Reserved := 0, RemoteIndex := 0,
      Counter := 1 }
    { LocalIP := ip10_0_0_2, RemoteIP := ip10_0_0_5, Protocol := 17 }
    ip10_0_0_5 (by rfl) (by decide) (by decide) (by decide) (by decide) (by decide)

/-- C6, the code at the failing input (scenario S3): node `10.0.0.2`, with an empty host
map, receives from `1.1.1.1:4242` the host-sync reply of the lighthouse `10.0.0.1` whose
directory blob decodes to the map holding `10.0.0.5` at `2.2.2.2:4242`. Afterwards
`QueryVpnIp(10.0.0.5)` is absent: the only entry gained is the sender's, `10.0.0.1` at
`1.1.1.1:4242`, and nothing is sent or written. -/
theorem handlePacket_hostSyncReply_directory_unused :
    (header.Decode scenarioHostSyncReply).toOption.map
        (fun h => (h.MessageType, h.MessageSubtype)) =
      some (header.Handshake, header.HostSyncReply)
    ∧ ((scenarioEnv.Unmarshal (scenarioHostSyncReply.drop (header.Len + 20))).bind
        (fun hs => hs ip10_0_0_5)).map (fun hostInfo => hostInfo.Remote) = some (some addr2)
    ∧ QueryVpnIp (handlePacket scenarioEnv scenarioController addr1
        scenarioHostSyncReply).1.hosts ip10_0_0_5 = none
    ∧ (QueryVpnIp (handlePacket scenarioEnv scenarioController addr1
        scenarioHostSyncReply).1.hosts ip10_0_0_1).map (fun hostInfo => hostInfo.Remote) =
      some (some addr1)
    ∧ (handlePacket scenarioEnv scenarioController addr1 scenarioHostSyncReply).2 = [] := by
  decide

/-- C7, counterexample: the host-sync request as the specification defines it, the 16-byte
header alone, decodes to a Handshake header with subtype HostSync; `handlePacket` on it sends
no datagram and leaves the (empty) host map as it was. -/
theorem handlePacket_bare_hostSync_dropped :
    (header.Decode scenarioHostSync).toOption =
      some { Version := 1, MessageType := header.Handshake,
             MessageSubtype := header.HostSync, Reserved := 0, RemoteIndex := 0,
             Counter := 0 }
    ∧ (handlePacket scenarioEnv scenarioController addr2 scenarioHostSync).2 = []
    ∧ (handlePacket scenarioEnv scenarioController addr2 scenarioHostSync).1.hosts.Hosts =
        NewHostMap.Hosts := by
  refine ⟨by decide, by decide, rfl⟩

/-- C7, as amended: for every datagram received from the UDP address `a` that decodes to a
Handshake header with subtype HostSync and whose payload after the 16-byte header parses as
an IPv4 packet, of inner source `src` (a request that carries nothing beyond the header is
dropped without effect), `handlePacket` first records the initiator as by `AddHost(src, a)`
(afterwards the map holds at `src` an entry whose `Remote` is `a`) and then sends exactly one
datagram to `a`, a Handshake/HostSyncReply made of the framing header, the IPv4 stub from the
local VPN IP to `src` with protocol UDP, and the directory blob encoding the host map as it
is after that `AddHost`. -/
theorem handlePacket_hostSync_reply (env : Env) (oc : OutboundController) (a : Addr)
    (p : List Nat) (h : header.Header) (pk : packet.Packet) (src : VpnIp)
    (hd : header.Decode p = .ok h) (ht : h.MessageType = header.Handshake)
    (hs : h.MessageSubtype = header.HostSync)
    (hp : utils.ParsePacket (p.drop header.Len) true = some pk)
    (hsrc : ipv4Src (p.drop header.Len) = src) :
    (handlePacket env oc a p).1 = { oc with hosts := AddHost oc.hosts src a }
    ∧ (∃ hostInfo, (handlePacket env oc a p).1.hosts.Hosts src = some hostInfo
        ∧ hostInfo.Remote = some a)
    ∧ (handlePacket env oc a p).2 =
        [Event.udpWrite
          (header.Encode
              { Version := 1, MessageType := header.Handshake,
                MessageSubtype := header.HostSyncReply, Reserved := 0, RemoteIndex := 0,
                Counter := 0 }
            ++ ([69, 0, 0, 20, 0, 0, 0, 0, 0, packet.ProtoUDP, 0, 0]
                ++ VpnIp.ToIP oc.localVpnIP ++ VpnIp.ToIP src)
            ++ env.Marshal (AddHost oc.hosts src a).Hosts)
          (some a)] := by
  obtain ⟨_, hremote, _, _⟩ := ParsePacket_incoming _ _ hp
  have hr : pk.RemoteIP = src := hremote.trans hsrc
  rw [handlePacket_handshake env oc a p h pk hd ht hp]
  have hrun : handleHandshake env oc a pk h p =
      ({ oc with hosts := AddHost oc.hosts src a },
        [Event.udpWrite
          (header.Encode
              { Version := 1, MessageType := header.Handshake,
                MessageSubtype := header.HostSyncReply, Reserved := 0, RemoteIndex := 0,
                Counter := 0 }
            ++ ([69, 0, 0, 20, 0, 0, 0, 0, 0, packet.ProtoUDP, 0, 0]
                ++ VpnIp.ToIP oc.localVpnIP ++ VpnIp.ToIP src)
            ++ env.Marshal (AddHost oc.hosts src a).Hosts)
          (some a)]) := by
    simp [handleHandshake, hs, hr, buildHandshakeHostSyncReplyPacket,
      header.BuildHandshakePacket, packet.BuildIPv4Packet, VpnIp.ToIP, be32, header.Version,
      packet.ProtoUDP]
  rw [hrun]
  exact ⟨rfl, ⟨_, AddHost_same oc.hosts src a, rfl⟩, rfl⟩

/-- C7, witness (amended claim): node `10.0.0.1` receives from `2.2.2.2:4242` a host-sync
request carrying an IPv4 packet from `10.0.0.2`. -/
theorem handlePacket_hostSync_reply_witness :
    ∃ hostInfo,
      (handlePacket scenarioEnv { scenarioController with localVpnIP := ip10_0_0_1 } addr2
        (scenarioHostSyncFrom ip10_0_0_2 ip10_0_0_1)).1.hosts.Hosts ip10_0_0_2 = some hostInfo
      ∧ hostInfo.Remote = some addr2 :=
  (handlePacket_hostSync_reply scenarioEnv { scenarioController with localVpnIP := ip10_0_0_1 }
    addr2 (scenarioHostSyncFrom ip10_0_0_2 ip10_0_0_1)
    { Version := 1, MessageType := 0, MessageSubtype := 1, Reserved := 0, RemoteIndex := 0,
      Counter := 0 }
    { LocalIP := ip10_0_0_1, RemoteIP := ip10_0_0_2, Protocol := 17 }
    ip10_0_0_2 (by rfl) (by decide) (by decide) (by decide) (by decide)).2.1

/-- C9: for every validly framed inbound Message datagram whose inner IPv4 source and inner
IPv4 destination both differ from the local VPN IP, `handlePacket` writes nothing to the TUN
writer and sends no datagram: no event at all is caused, and the controller afterwards is the
one before with its host map replaced by `UpdateHost(srcVip, srcUdpAddr)`. -/
theorem handlePacket_transit_dropped (env : Env) (oc : OutboundController) (addr : Addr)
    (p : List Nat) (h : header.Header) (pk : packet.Packet)
    (hd : header.Decode p = .ok h) (ht : h.MessageType = header.Message)
    (hp : utils.ParsePacket (p.drop header.Len) true = some pk)
    (hsrc : ipv4Src (p.drop header.Len) ≠ oc.localVpnIP)
    (hdst : ipv4Dst (p.drop header.Len) ≠ oc.localVpnIP) :
    handlePacket env oc addr p =
      ({ oc with hosts := UpdateHost oc.hosts (ipv4Src (p.drop header.Len)) addr }, []) := by
  obtain ⟨_, hremote, hlocal, _⟩ := ParsePacket_incoming _ _ hp
  have h1 : pk.RemoteIP ≠ oc.localVpnIP := by rw [hremote]; exact hsrc
  have h2 : ¬ oc.localVpnIP = pk.LocalIP := by
    rw [hlocal]; exact fun heq => hdst heq.symm
  rw [handlePacket_message env oc addr p h pk hd ht hp, if_neg h1, if_neg h2]
  simp [updateRemotes, hremote]

/-- C9, witness: node `10.0.0.2` receives from `2.2.2.2:4242` a Message from `10.0.0.5` to
`10.0.0.9`. -/
theorem handlePacket_transit_dropped_witness :
    handlePacket scenarioEnv scenarioController addr2
        (scenarioMessage packet.ProtoUDP ip10_0_0_5 ip10_0_0_9) =
      ({ scenarioController with
          hosts := UpdateHost scenarioController.hosts
            (ipv4Src ((scenarioMessage packet.ProtoUDP ip10_0_0_5 ip10_0_0_9).drop header.Len))
            addr2 }, []) :=
  handlePacket_transit_dropped scenarioEnv scenarioController addr2
    (scenarioMessage packet.ProtoUDP ip10_0_0_5 ip10_0_0_9)
    { Version := 1, MessageType := 1, MessageSubtype := 0, Reserved := 0, RemoteIndex := 0,
      Counter := 1 }
    { LocalIP := ip10_0_0_9, RemoteIP := ip10_0_0_5, Protocol := 17 }
    (by rfl) (by decide) (by decide) (by decide) (by decide)

/-! ## Theorems: the outbound path -/

theorem QueryVpnIpPtr_eq (hm : HostMap) (vpnIp : VpnIp) :
    QueryVpnIpPtr hm vpnIp = (hm.Hosts vpnIp).map (fun _ => hm.ptr vpnIp) := by
  unfold QueryVpnIpPtr QueryVpnIp queryVpnIp
  cases hm.Hosts vpnIp <;> rfl

theorem getLighthousesLoop_eq (env : Env) (hosts : HostMap) (ips : List String)
    (acc : List (Option Ptr)) :
    getLighthousesLoop env hosts ips acc =
      acc ++ (ips.filterMap
        (fun ip => (env.ParseVpnIp ip).bind (QueryVpnIpPtr hosts))).map some := by
  induction ips generalizing acc with
  | nil => simp [getLighthousesLoop]
  | cons ip rest ih =>
    unfold getLighthousesLoop
    cases hparse : env.ParseVpnIp ip with
    | none => simp [ih, List.filterMap_cons, hparse]
    | some vpnIp =>
      cases hq : QueryVpnIpPtr hosts vpnIp with
      | none => simp [ih, List.filterMap_cons, hparse, hq]
      | some host => simp [ih, List.filterMap_cons, hparse, hq]

theorem getLighthouses_eq (env : Env) (oc : OutboundController) :
    getLighthouses env oc =
      (oc.cfg.Lighthouse.Hosts.filterMap
        (fun ip => (env.ParseVpnIp ip).bind (QueryVpnIpPtr oc.hosts))).map some := by
  simp [getLighthouses, getLighthousesLoop_eq]

/-- C3: let the controller's lighthouse list be the one `getLighthouses` builds (at `Start`,
in a state `oc0`), and let the pointers to the configured lighthouses that resolve there be
`lighthouse :: rest` in configuration order. In every later state `oc` of the controller
with that list, for every payload `p` and every VPN IP `v` that is not a key of the host
map, `WriteToVIP(p, v)` hands exactly one datagram to the UDP socket, addressed to the
`Remote` that the record of the first resolved lighthouse holds when the call is made
(`UpdateHost` calls made since `Start` included); the datagram is the 16-byte framing header
of a Message followed by `p` unchanged, and the call returns what the socket returns. -/
theorem WriteToVIP_falls_back_to_first_lighthouse (env : Env) (oc0 oc : OutboundController)
    (p : List Nat) (v : VpnIp) (lighthouse : Ptr) (rest : List Ptr)
    (hbuilt : oc.lighthouses = getLighthouses env oc0)
    (hresolved : oc0.cfg.Lighthouse.Hosts.filterMap
        (fun ip => (env.ParseVpnIp ip).bind (QueryVpnIpPtr oc0.hosts)) = lighthouse :: rest)
    (hunknown : oc.hosts.Hosts v = none) :
    (WriteToVIP oc p v).events =
        [Event.udpWrite
          (header.Encode
              { Version := 1, MessageType := header.Message, MessageSubtype := 0,
                Reserved := 0, RemoteIndex := 9527, Counter := 111 } ++ p)
          (oc.hosts.heap lighthouse).Remote]
    ∧ (header.Encode
          { Version := 1, MessageType := header.Message, MessageSubtype := 0,
            Reserved := 0, RemoteIndex := 9527, Counter := 111 }).length = header.Len
    ∧ (WriteToVIP oc p v).err =
        oc.outside.WriteTo
          (header.Encode
              { Version := 1, MessageType := header.Message, MessageSubtype := 0,
                Reserved := 0, RemoteIndex := 9527, Counter := 111 } ++ p)
          (oc.hosts.heap lighthouse).Remote
    ∧ (WriteToVIP oc p v).oc.hosts = oc.hosts := by
  have hl : oc.lighthouses = some lighthouse :: rest.map some := by
    rw [hbuilt, getLighthouses_eq, hresolved]; rfl
  have hq : QueryVpnIp oc.hosts v = none := by
    simp [QueryVpnIp, queryVpnIp, hunknown]
  simp [WriteToVIP, header.BuildMessagePacket, hq, hl, writeToLighthouse, header.Version,
    header.Encode, be64, be32, header.Len]

/-- C3, witness (scenario S2): `Start` with the lighthouse `10.0.0.1` configured at
`1.1.1.1:4242` puts the pointer to its record in the lighthouse list. Right after `Start` a
packet for the unknown `10.0.0.9` goes to `1.1.1.1:4242`; after the controller has learned
`10.0.0.1` at `3.3.3.3:5555` from an inbound Message, it goes to `3.3.3.3:5555`. -/
theorem WriteToVIP_falls_back_to_first_lighthouse_witness :
    (Start scenarioEnv bootstrapController).map (fun r => r.oc.lighthouses) =
        some startedController.lighthouses
    ∧ (WriteToVIP startedController [69, 0, 0, 20] ip10_0_0_9).events =
        [Event.udpWrite
          (header.Encode
              { Version := 1, MessageType := header.Message, MessageSubtype := 0,
                Reserved := 0, RemoteIndex := 9527, Counter := 111 } ++ [69, 0, 0, 20])
          (some addr1)]
    ∧ (WriteToVIP learnedController [69, 0, 0, 20] ip10_0_0_9).events =
        [Event.udpWrite
          (header.Encode
              { Version := 1, MessageType := header.Message, MessageSubtype := 0,
                Reserved := 0, RemoteIndex := 9527, Counter := 111 } ++ [69, 0, 0, 20])
          (some addr3)] :=
  ⟨by decide,
   (WriteToVIP_falls_back_to_first_lighthouse scenarioEnv configuredController
      startedController [69, 0, 0, 20] ip10_0_0_9 0 [] rfl (by decide) (by decide)).1,
   (WriteToVIP_falls_back_to_first_lighthouse scenarioEnv configuredController
      learnedController [69, 0, 0, 20] ip10_0_0_9 0 [] rfl (by decide) (by decide)).1⟩

theorem WriteToVIP_replaced_entry_example :
    (QueryVpnIp replacedController.hosts ip10_0_0_1).map (fun hostInfo => hostInfo.Remote) =
        some (some addr3)
    ∧ replacedController.lighthouses = [some 0]
    ∧ (replacedController.hosts.heap 0).Remote = some addr1
    ∧ (WriteToVIP replacedController [69, 0, 0, 20] ip10_0_0_9).events =
        [Event.udpWrite
          (header.Encode
              { Version := 1, MessageType := header.Message, MessageSubtype := 0,
                Reserved := 0, RemoteIndex := 9527, Counter := 111 } ++ [69, 0, 0, 20])
          (some addr1)] := by
  decide

/-- C8: for every payload `p` and every VPN IP `v` that is not a key of the host map, when
the controller's lighthouse list is empty, `WriteToVIP(p, v)` returns the error
`host v not found`, hands no datagram to the UDP socket and leaves the controller, its host
map included, unchanged. -/
theorem WriteToVIP_no_route (oc : OutboundController) (p : List Nat) (v : VpnIp)
    (hunknown : oc.hosts.Hosts v = none) (hnone : oc.lighthouses = []) :
    (WriteToVIP oc p v).err = some (Err.hostNotFound v)
    ∧ (WriteToVIP oc p v).events = []
    ∧ (WriteToVIP oc p v).oc = oc
    ∧ (WriteToVIP oc p v).oc.hosts = oc.hosts := by
  have hq : QueryVpnIp oc.hosts v = none := by
    simp [QueryVpnIp, queryVpnIp, hunknown]
  simp [WriteToVIP, header.BuildMessagePacket, hq, hnone, writeToLighthouse]

/-- C8, witness: the controller with an empty host map and no lighthouse, asked to send to
`10.0.0.9`. -/
theorem WriteToVIP_no_route_witness :
    (WriteToVIP scenarioController [69, 0, 0, 20] ip10_0_0_9).err =
        some (Err.hostNotFound ip10_0_0_9)
    ∧ (WriteToVIP scenarioController [69, 0, 0, 20] ip10_0_0_9).events = [] :=
  ⟨(WriteToVIP_no_route scenarioController [69, 0, 0, 20] ip10_0_0_9 rfl rfl).1,
   (WriteToVIP_no_route scenarioController [69, 0, 0, 20] ip10_0_0_9 rfl rfl).2.1⟩

/-! ## Theorems: start-up -/

theorem configureStaticHost_entry (env : Env) (hosts : HostMap) (k e0 : String)
    (rest : List String) (ip : List Nat) (a : Addr)
    (hip : env.ParseIP k = some ip) (hres : env.ResolveUDPAddr e0 = some a)
    (hport : a.Port < 65536) :
    configureStaticHost env hosts (k, e0 :: rest) =
      some (AddHost hosts (env.Ip2VpnIp ip) a) := by
  have hp : a.Port % 65536 = a.Port := Nat.mod_eq_of_lt hport
  simp [configureStaticHost, hip, hres, hp]

theorem configureStaticHost_other (env : Env) (hosts hosts1 : HostMap)
    (kv : String × List String) (vip : VpnIp)
    (hfree : ∀ ip, env.ParseIP kv.1 = some ip → env.Ip2VpnIp ip ≠ vip)
    (hstep : configureStaticHost env hosts kv = some hosts1) :
    hosts1.Hosts vip = hosts.Hosts vip := by
  unfold configureStaticHost at hstep
  cases hparse : env.ParseIP kv.1 with
  | none =>
    simp [hparse] at hstep
    rw [← hstep]
  | some ip =>
    cases hv : kv.2 with
    | nil => simp [hparse, hv] at hstep
    | cons v0 tl =>
      cases hr : env.ResolveUDPAddr v0 with
      | none =>
        simp [hparse, hv, hr] at hstep
        rw [← hstep]
      | some udpAddr =>
        simp [hparse, hv, hr] at hstep
        rw [← hstep]
        exact AddHost_other _ _ _ _ (fun heq => hfree ip hparse heq.symm)

theorem configureStaticHost_keeps (env : Env) (hosts hosts1 : HostMap)
    (kv : String × List String) (k e0 : String) (rest : List String) (ip : List Nat)
    (a : Addr) (hip : env.ParseIP k = some ip) (hres : env.ResolveUDPAddr e0 = some a)
    (hport : a.Port < 65536)
    (hsole : ∀ ip1, env.ParseIP kv.1 = some ip1 → env.Ip2VpnIp ip1 = env.Ip2VpnIp ip →
      kv = (k, e0 :: rest))
    (hstep : configureStaticHost env hosts kv = some hosts1) :
    (kv = (k, e0 :: rest) → hosts1.Hosts (env.Ip2VpnIp ip) =
        (AddHost hosts (env.Ip2VpnIp ip) a).Hosts (env.Ip2VpnIp ip))
    ∧ (hosts.Hosts (env.Ip2VpnIp ip) =
          (AddHost hosts (env.Ip2VpnIp ip) a).Hosts (env.Ip2VpnIp ip) →
        hosts1.Hosts (env.Ip2VpnIp ip) =
          (AddHost hosts (env.Ip2VpnIp ip) a).Hosts (env.Ip2VpnIp ip)) := by
  by_cases hkv : kv = (k, e0 :: rest)
  · subst hkv
    rw [configureStaticHost_entry env hosts k e0 rest ip a hip hres hport] at hstep
    have h1 : hosts1 = AddHost hosts (env.Ip2VpnIp ip) a := (Option.some.inj hstep).symm
    subst h1
    exact ⟨fun _ => rfl, fun _ => rfl⟩
  · refine ⟨fun h => absurd h hkv, fun hold => ?_⟩
    rw [configureStaticHost_other env hosts hosts1 kv (env.Ip2VpnIp ip)
      (fun ip1 hp1 heq => hkv (hsole ip1 hp1 heq)) hstep]
    exact hold

theorem configureStaticHosts_keeps (env : Env) (k e0 : String) (rest : List String)
    (ip : List Nat) (a : Addr) (hip : env.ParseIP k = some ip)
    (hres : env.ResolveUDPAddr e0 = some a) (hport : a.Port < 65536)
    (entries : List (String × List String)) :
    ∀ hosts hosts1 : HostMap,
      (∀ kv ∈ entries, ∀ ip1, env.ParseIP kv.1 = some ip1 →
        env.Ip2VpnIp ip1 = env.Ip2VpnIp ip → kv = (k, e0 :: rest)) →
      configureStaticHosts env hosts entries = some hosts1 →
      ((k, e0 :: rest) ∈ entries ∨
        hosts.Hosts (env.Ip2VpnIp ip) =
          some { Remote := some a, Remotes := { addrs := [] }, RemoteIndexId := 0,
                 LocalIndexId := 0, VpnIp := env.Ip2VpnIp ip }) →
      hosts1.Hosts (env.Ip2VpnIp ip) =
        some { Remote := some a, Remotes := { addrs := [] }, RemoteIndexId := 0,
               LocalIndexId := 0, VpnIp := env.Ip2VpnIp ip } := by
  induction entries with
  | nil =>
    intro hosts hosts1 _ hrun hstart
    simp [configureStaticHosts] at hrun
    rcases hstart with hmem | hold
    · simp at hmem
    · rw [← hrun]; exact hold
  | cons kv tl ih =>
    intro hosts hosts1 hsole hrun hstart
    unfold configureStaticHosts at hrun
    cases hstep : configureStaticHost env hosts kv with
    | none => simp [hstep] at hrun
    | some hostsMid =>
      simp [hstep] at hrun
      have hk := configureStaticHost_keeps env hosts hostsMid kv k e0 rest ip a hip hres hport
        (hsole kv (List.mem_cons_self _ _)) hstep
      rw [AddHost_same] at hk
      apply ih hostsMid hosts1 (fun kv1 hm => hsole kv1 (List.mem_cons_of_mem _ hm)) hrun
      rcases hstart with hmem | hold
      · rcases List.mem_cons.mp hmem with hhead | htail
        · exact Or.inr (hk.1 hhead.symm)
        · exact Or.inl htail
      · exact Or.inr (hk.2 hold)

theorem Start_hosts (env : Env) (oc : OutboundController) (r : Result)
    (hstart : Start env oc = some r) (herr : r.err = none) :
    configureStaticHosts env oc.hosts oc.cfg.StaticHostMap = some r.oc.hosts := by
  unfold Start at hstart
  by_cases hport : oc.cfg.Listen.Port = 0
  · cases hla : oc.outside.LocalAddr with
    | error e =>
      simp [hport, hla] at hstart
      rw [← hstart] at herr
      simp at herr
    | ok u =>
      simp only [hport, hla, if_true] at hstart
      unfold configureStaticHostMap at hstart
      cases hc : configureStaticHosts env oc.hosts oc.cfg.StaticHostMap with
      | none => simp [hc] at hstart
      | some hosts =>
        simp [hc, hla] at hstart
        rw [← hstart]
  · simp only [hport, if_false] at hstart
    unfold configureStaticHostMap at hstart
    cases hc : configureStaticHosts env oc.hosts oc.cfg.StaticHostMap with
    | none => simp [hc] at hstart
    | some hosts =>
      cases hla : oc.outside.LocalAddr with
      | error e =>
        simp [hc, hla] at hstart
        rw [← hstart] at herr
        simp at herr
      | ok u =>
        simp [hc, hla] at hstart
        rw [← hstart]

theorem configureStaticHosts_inStep (env : Env) (entries : List (String × List String)) :
    ∀ hosts hosts1 : HostMap, hosts.InStep →
      configureStaticHosts env hosts entries = some hosts1 → hosts1.InStep := by
  induction entries with
  | nil =>
    intro hosts hosts1 hstep hrun
    simp only [configureStaticHosts, Option.some.injEq] at hrun
    rw [← hrun]; exact hstep
  | cons kv rest ih =>
    intro hosts hosts1 hstep hrun
    unfold configureStaticHosts at hrun
    cases hone : configureStaticHost env hosts kv with
    | none => simp [hone] at hrun
    | some hostsMid =>
      simp only [hone] at hrun
      refine ih hostsMid hosts1 ?_ hrun
      unfold configureStaticHost at hone
      split at hone
      · rw [← Option.some.inj hone]; exact hstep
      · split at hone
        · simp at hone
        · split at hone
          · rw [← Option.some.inj hone]; exact hstep
          · rw [← Option.some.inj hone]; exact AddHost_inStep _ _ _ hstep

theorem Start_inStep (env : Env) (oc : OutboundController) (r : Result)
    (hstart : Start env oc = some r) (herr : r.err = none) (hstep : oc.hosts.InStep) :
    r.oc.hosts.InStep :=
  configureStaticHosts_inStep env oc.cfg.StaticHostMap oc.hosts r.oc.hosts hstep
    (Start_hosts env oc r hstart herr)

/-- C10, counterexample: the static host map names `10.0.0.1` under the two keys
`10.0.0.1` (endpoint `1.1.1.1:4242`) and `::ffff:10.0.0.1` (endpoint `2.2.2.2:4242`), visited
in this order. `Start` returns without error; the pair of key `10.0.0.1` has a non-empty
endpoint list, a valid IPv4 key and a resolvable first endpoint, yet `Hosts[10.0.0.1].Remote`
is `2.2.2.2:4242`, not `1.1.1.1:4242`. -/
theorem Start_colliding_keys_overwrite :
    (Start scenarioEnv twoKeysController).map
        (fun r => (r.err, (r.oc.hosts.Hosts ip10_0_0_1).map (fun hostInfo => hostInfo.Remote))) =
      some (none, some (some addr2))
    ∧ ("10.0.0.1", ["1.1.1.1:4242"]) ∈ twoKeysController.cfg.StaticHostMap
    ∧ (scenarioEnv.ParseIP "10.0.0.1").map scenarioEnv.Ip2VpnIp = some ip10_0_0_1
    ∧ scenarioEnv.ResolveUDPAddr "1.1.1.1:4242" = some addr1
    ∧ addr1 ≠ addr2 := by
  decide

/-- C10, as amended: after `Start` returns without error, for every configured pair
`(k, es)` of the static host map with `es` non-empty (`es = e0 :: rest`), `k` accepted by
`net.ParseIP` and `e0` resolved by `net.ResolveUDPAddr` to `a`, and such that no other
configured key denotes the same VPN IP, `Hosts[vip(k)]` exists with `VpnIp = vip(k)` and
`Remote` equal to the address and port of `e0`. -/
theorem Start_static_hosts_present (env : Env) (oc : OutboundController) (r : Result)
    (k e0 : String) (rest : List String) (ip : List Nat) (a : Addr)
    (hstart : Start env oc = some r) (herr : r.err = none)
    (hmem : (k, e0 :: rest) ∈ oc.cfg.StaticHostMap)
    (hip : env.ParseIP k = some ip)
    (hres : env.ResolveUDPAddr e0 = some a) (hport : a.Port < 65536)
    (hsole : ∀ kv ∈ oc.cfg.StaticHostMap, ∀ ip1, env.ParseIP kv.1 = some ip1 →
      env.Ip2VpnIp ip1 = env.Ip2VpnIp ip → kv = (k, e0 :: rest)) :
    r.oc.hosts.Hosts (env.Ip2VpnIp ip) =
      some { Remote := some a, Remotes := { addrs := [] }, RemoteIndexId := 0,
             LocalIndexId := 0, VpnIp := env.Ip2VpnIp ip } :=
  configureStaticHosts_keeps env k e0 rest ip a hip hres hport oc.cfg.StaticHostMap
    oc.hosts r.oc.hosts hsole (Start_hosts env oc r hstart herr) (Or.inl hmem)

/-- C10, witness (scenario S1): the static host map lists `10.0.0.1` at `1.1.1.1:4242`;
after `Start` the entry of `10.0.0.1` is there with that remote. -/
theorem Start_static_hosts_present_witness :
    startedController.hosts.Hosts
        (scenarioEnv.Ip2VpnIp [0, 0, 0, 0, 0, 0, 0, 0, 0, 0, 255, 255, 10, 0, 0, 1]) =
      some { Remote := some addr1, Remotes := { addrs := [] }, RemoteIndexId := 0,
             LocalIndexId := 0,
             VpnIp := scenarioEnv.Ip2VpnIp
               [0, 0, 0, 0, 0, 0, 0, 0, 0, 0, 255, 255, 10, 0, 0, 1] } :=
  Start_static_hosts_present scenarioEnv bootstrapController
    { oc := startedController, events := [], err := none }
    "10.0.0.1" "1.1.1.1:4242" [] [0, 0, 0, 0, 0, 0, 0, 0, 0, 0, 255, 255, 10, 0, 0, 1] addr1
    rfl rfl (by decide) (by decide) (by decide) (by decide)
    (by
      intro kv hkv _ _ _
      simpa [bootstrapController] using hkv)

/-! ## Theorems: reachable host maps -/

theorem HostOp_run_keyed (hm : HostMap) (op : HostOp)
    (hinv : ∀ k hostInfo, hm.Hosts k = some hostInfo → hostInfo.VpnIp = k) :
    ∀ k hostInfo, (HostOp.run hm op).Hosts k = some hostInfo → hostInfo.VpnIp = k := by
  intro k hostInfo hk
  cases op with
  | add vip addr =>
    by_cases hkv : k = vip
    · subst hkv
      simp only [HostOp.run, AddHost_same] at hk
      rw [← Option.some.inj hk]
    · simp only [HostOp.run, AddHost_other hm vip k addr hkv] at hk
      exact hinv k hostInfo hk
  | update vip addr =>
    by_cases hkv : k = vip
    · subst hkv
      simp only [HostOp.run] at hk
      cases hcase : hm.Hosts k with
      | none =>
        rw [UpdateHost_absent hm k addr hcase] at hk
        simp only [mapSet_same] at hk
        rw [← Option.some.inj hk]
      | some old =>
        rw [UpdateHost_present hm k addr old hcase] at hk
        simp only [mapSet_same] at hk
        rw [← Option.some.inj hk]
        exact hinv k old hcase
    · simp only [HostOp.run, UpdateHost_other hm vip k addr hkv] at hk
      exact hinv k hostInfo hk
  | delete vip =>
    by_cases hkv : k = vip
    · subst hkv
      simp [HostOp.run, DeleteHost, mapDelete] at hk
    · simp only [HostOp.run, DeleteHost, mapDelete, if_neg hkv] at hk
      exact hinv k hostInfo hk

theorem runHostOps_keyed (ops : List HostOp) :
    ∀ hm : HostMap, (∀ k hostInfo, hm.Hosts k = some hostInfo → hostInfo.VpnIp = k) →
      ∀ k hostInfo, (runHostOps hm ops).Hosts k = some hostInfo → hostInfo.VpnIp = k := by
  induction ops with
  | nil => intro hm hinv; exact hinv
  | cons op rest ih =>
    intro hm hinv
    exact ih (HostOp.run hm op) (HostOp_run_keyed hm op hinv)

/-- C11: in every host map reached from `NewHostMap` by a finite sequence of `AddHost`,
`UpdateHost` and `DeleteHost` calls, every entry `(k, hostInfo)` of `Hosts` has
`hostInfo.VpnIp = k`. -/
theorem reachable_hosts_keyed_by_VpnIp (ops : List HostOp) (k : VpnIp) (hostInfo : HostInfo)
    (hentry : (runHostOps NewHostMap ops).Hosts k = some hostInfo) :
    hostInfo.VpnIp = k :=
  runHostOps_keyed ops NewHostMap (fun _ _ h => by simp [NewHostMap] at h) k hostInfo hentry

/-- C11, witness: after `AddHost(10.0.0.1, 1.1.1.1:4242)`, `UpdateHost(10.0.0.5,
2.2.2.2:4242)`, `UpdateHost(10.0.0.1, 2.2.2.2:4242)` and `DeleteHost(10.0.0.9)` the entry of
`10.0.0.5` carries `10.0.0.5`. -/
theorem reachable_hosts_keyed_by_VpnIp_witness :
    (runHostOps NewHostMap
        [HostOp.add ip10_0_0_1 addr1, HostOp.update ip10_0_0_5 addr2,
         HostOp.update ip10_0_0_1 addr2, HostOp.delete ip10_0_0_9]).Hosts ip10_0_0_5 =
      some { Remote := some addr2, Remotes := { addrs := [] }, RemoteIndexId := 0,
             LocalIndexId := 0, VpnIp := ip10_0_0_5 }
    ∧ (({ Remote := some addr2, Remotes := { addrs := [] }, RemoteIndexId := 0,
          LocalIndexId := 0, VpnIp := ip10_0_0_5 } : HostInfo).VpnIp = ip10_0_0_5) :=
  ⟨by decide,
   reachable_hosts_keyed_by_VpnIp
    [HostOp.add ip10_0_0_1 addr1, HostOp.update ip10_0_0_5 addr2,
     HostOp.update ip10_0_0_1 addr2, HostOp.delete ip10_0_0_9]
    ip10_0_0_5
    { Remote := some addr2, Remotes := { addrs := [] }, RemoteIndexId := 0,
      LocalIndexId := 0, VpnIp := ip10_0_0_5 }
    (by decide)⟩

/-! ## Theorems: the TUN device -/

/-- C13, the code at the failing input: a device built by `newTun` with configured MTU 1400
stores 1400 as `DefaultMTU` and `MaxMTU`, and one built with configured MTU 0 stores the
default 1300 there, but the accessor `MTU()` reads the field `defaultMTU`, which `newTun`
never assigns, and reports 0 for both. -/
theorem newTun_MTU_reports_zero :
    (match tun.newTun tun.scenarioKernel "nexus0" tun.scenarioCidr 1400 500 false with
      | .ok t => some (t.MTU, t.DefaultMTU, t.MaxMTU)
      | .error _ => none) = some (0, 1400, 1400)
    ∧ (match tun.newTun tun.scenarioKernel "nexus0" tun.scenarioCidr 0 500 false with
      | .ok t => some (t.MTU, t.DefaultMTU, t.MaxMTU)
      | .error _ => none) = some (0, 1300, 1300) := by
  decide

theorem newTun_MTU_unassigned (kernel : tun.Kernel) (deviceName : String) (cidr : tun.IPNet)
    (defaultMTU txQueueLen : Int) (multiqueue : Bool) (t : tun.Tun)
    (hbuilt : tun.newTun kernel deviceName cidr defaultMTU txQueueLen multiqueue = .ok t) :
    t.MTU = 0 ∧ t.DefaultMTU = (if defaultMTU = 0 then tun.DefaultMTU else defaultMTU)
      ∧ t.MaxMTU = t.DefaultMTU := by
  unfold tun.newTun at hbuilt
  cases hopen : kernel.openTun with
  | error err => simp [hopen] at hbuilt
  | ok fd =>
    simp only [hopen] at hbuilt
    split at hbuilt
    · simp at hbuilt
    · injection hbuilt with hbuilt
      subst hbuilt
      exact ⟨rfl, rfl, rfl⟩

theorem slice_to_end (b : List Nat) (nn : Nat) : slice b nn b.length = b.drop nn := by
  unfold slice
  apply List.take_of_length_le
  simp

theorem written_nil : tun.written [] = 0 := rfl

theorem written_cons (c : tun.SysCall) (calls : List tun.SysCall) :
    tun.written (c :: calls) = c.n.toNat + tun.written calls := by
  simp [tun.written]

theorem Write_single_call_spec (sys : Nat → List Nat → Int × Option tun.TunErr)
    (b : List Nat) (k nn count : Nat) (err : Option tun.TunErr) (call : tun.SysCall)
    (hbuf : call.buf = b.drop nn) (hres : (call.n, call.err) = sys k call.buf)
    (hcount : count = nn + call.n.toNat) (hle : count ≤ b.length)
    (hnil : err = none → count = b.length)
    (heof : call.n = 0 → call.err = none → nn ≠ b.length →
      err = some tun.TunErr.ErrUnexpectedEOF)
    (hwhy : nn + call.n.toNat = b.length ∨ call.err ≠ none ∨ call.n = 0)
    (hstop : nn + call.n.toNat = b.length ∨ call.err ≠ none → err = call.err) :
    1 ≤ [call].length
    ∧ [call].length ≤ b.length - nn + 1
    ∧ count = nn + tun.written [call]
    ∧ count ≤ b.length
    ∧ (err = none → count = b.length)
    ∧ ∀ i c, [call][i]? = some c →
        c.buf = b.drop (nn + tun.written ([call].take i))
        ∧ (c.n, c.err) = sys (k + i) c.buf
        ∧ (c.n = 0 → c.err = none → nn + tun.written ([call].take i) ≠ b.length →
            i + 1 = [call].length ∧ err = some tun.TunErr.ErrUnexpectedEOF
              ∧ count = nn + tun.written ([call].take i))
        ∧ (0 < c.n → c.err = none → nn + tun.written ([call].take (i + 1)) ≠ b.length →
            i + 1 < [call].length)
        ∧ (nn + tun.written ([call].take (i + 1)) = b.length ∨ c.err ≠ none →
            i + 1 = [call].length ∧ err = c.err
              ∧ count = nn + tun.written ([call].take (i + 1))) := by
  refine ⟨by simp, by simp, ?_, hle, hnil, ?_⟩
  · rw [written_cons, written_nil]; omega
  · intro i c hc
    cases i with
    | succ j => simp at hc
    | zero =>
      simp only [List.getElem?_cons_zero, Option.some.injEq] at hc
      subst hc
      have htake : tun.written ([call].take (0 + 1)) = call.n.toNat := by
        simp [written_cons, written_nil]
      rw [htake]
      simp only [List.take_zero, written_nil, Nat.add_zero, List.length_singleton]
      refine ⟨hbuf, hres, fun hn0 hnone hnot => ⟨trivial, heof hn0 hnone hnot, ?_⟩, ?_, ?_⟩
      · rw [hcount, hn0]; rfl
      · intro hpos hnone hnot
        rcases hwhy with h | h | h
        · exact absurd h hnot
        · exact absurd hnone h
        · omega
      · intro h
        exact ⟨trivial, hstop h, hcount⟩

theorem Write_loop_spec (sys : Nat → List Nat → Int × Option tun.TunErr) (b : List Nat)
    (hsys : ∀ i buf, 0 ≤ (sys i buf).1 ∧ (sys i buf).1 ≤ buf.length) :
    ∀ fuel k nn, nn ≤ b.length → b.length - nn + 1 ≤ fuel →
      ∃ count err calls,
        tun.Write.loop sys b fuel k nn = some (.returned count err calls)
        ∧ 1 ≤ calls.length
        ∧ calls.length ≤ b.length - nn + 1
        ∧ count = nn + tun.written calls
        ∧ count ≤ b.length
        ∧ (err = none → count = b.length)
        ∧ ∀ i c, calls[i]? = some c →
            c.buf = b.drop (nn + tun.written (calls.take i))
            ∧ (c.n, c.err) = sys (k + i) c.buf
            ∧ (c.n = 0 → c.err = none → nn + tun.written (calls.take i) ≠ b.length →
                i + 1 = calls.length ∧ err = some tun.TunErr.ErrUnexpectedEOF
                  ∧ count = nn + tun.written (calls.take i))
            ∧ (0 < c.n → c.err = none → nn + tun.written (calls.take (i + 1)) ≠ b.length →
                i + 1 < calls.length)
            ∧ (nn + tun.written (calls.take (i + 1)) = b.length ∨ c.err ≠ none →
                i + 1 = calls.length ∧ err = c.err
                  ∧ count = nn + tun.written (calls.take (i + 1))) := by
  intro fuel
  induction fuel with
  | zero => intro k nn _ hfuel; omega
  | succ fuel ih =>
    intro k nn hnn hfuel
    have hbound := hsys k (b.drop nn)
    have hlen : (b.drop nn).length = b.length - nn := List.length_drop nn b
    rw [hlen] at hbound
    have hnopanic : ¬ b.length < nn := by omega
    rw [tun.Write.loop]
    simp only [hnopanic, if_false, slice_to_end]
    rcases hr : sys k (b.drop nn) with ⟨n, e⟩
    rw [hr] at hbound
    obtain ⟨hn0, hnle⟩ := hbound
    simp only at hn0 hnle ⊢
    by_cases hpos : 0 < n
    · simp only [hpos, if_true]
      by_cases hdone : nn + n.toNat = b.length
      · rw [if_pos hdone]
        exact ⟨_, _, _, rfl, Write_single_call_spec sys b k nn _ e ⟨b.drop nn, n, e⟩ rfl
          hr.symm rfl (by omega) (fun _ => hdone) (fun h => by simp only at h; omega)
          (Or.inl hdone) (fun _ => rfl)⟩
      · rw [if_neg hdone]
        by_cases herr : e ≠ none
        · rw [if_pos herr]
          exact ⟨_, _, _, rfl, Write_single_call_spec sys b k nn _ e ⟨b.drop nn, n, e⟩ rfl
            hr.symm rfl (by omega) (fun h => absurd h herr)
            (fun h => by simp only at h; omega) (Or.inr (Or.inl herr)) (fun _ => rfl)⟩
        · rw [if_neg herr]
          have hzero : ¬ n = 0 := by omega
          rw [if_neg hzero]
          obtain ⟨count, err, calls, hrun, hone, hcalls, hcount, hle, hnil, hall⟩ :=
            ih (k + 1) (nn + n.toNat) (by omega) (by omega)
          rw [hrun]
          refine ⟨count, err, _, rfl, ?_, ?_, ?_, hle, hnil, ?_⟩
          · simp only [List.length_cons]; omega
          · simp only [List.length_cons]; omega
          · rw [written_cons]; simp only; omega
          · intro i c hc
            cases i with
            | zero =>
              simp only [List.getElem?_cons_zero, Option.some.injEq] at hc
              subst hc
              have htake : tun.written
                  ((({ buf := b.drop nn, n := n, err := e } : tun.SysCall) :: calls).take
                    (0 + 1)) = n.toNat := by
                simp [written_cons, written_nil]
              rw [htake]
              simp only [List.take_zero, written_nil, Nat.add_zero, List.length_cons]
              refine ⟨trivial, hr.symm, fun h => absurd h hzero, fun _ _ _ => by omega, ?_⟩
              intro h
              rcases h with h | h
              · exact absurd h hdone
              · exact absurd h herr
            | succ j =>
              simp only [List.getElem?_cons_succ] at hc
              obtain ⟨hbuf, hs, heof, hcont, hstop⟩ := hall j c hc
              simp only [List.take_succ_cons, written_cons, List.length_cons]
              refine ⟨?_, ?_, ?_, ?_, ?_⟩
              · rw [hbuf, Nat.add_assoc]
              · rw [hs]; congr 1; omega
              · intro hc0 hnone hnot
                obtain ⟨h1, h2, h3⟩ := heof hc0 hnone (by omega)
                exact ⟨by omega, h2, by omega⟩
              · intro hcpos hnone hnot
                have := hcont hcpos hnone (by omega)
                omega
              · intro h
                have h' : nn + n.toNat + tun.written (calls.take (j + 1)) = b.length
                    ∨ c.err ≠ none := by
                  rcases h with h | h
                  · exact Or.inl (by omega)
                  · exact Or.inr h
                obtain ⟨h1, h2, h3⟩ := hstop h'
                exact ⟨by omega, h2, by omega⟩
    · simp only [hpos, if_false]
      have hzero : n = 0 := by omega
      by_cases hdone : nn = b.length
      · rw [if_pos hdone]
        exact ⟨_, _, _, rfl, Write_single_call_spec sys b k nn _ e ⟨b.drop nn, n, e⟩ rfl
          hr.symm (by simp [hzero]) (by omega) (fun _ => hdone)
          (fun _ _ h => absurd hdone h) (Or.inr (Or.inr hzero)) (fun _ => rfl)⟩
      · rw [if_neg hdone]
        by_cases herr : e ≠ none
        · rw [if_pos herr]
          exact ⟨_, _, _, rfl, Write_single_call_spec sys b k nn _ e ⟨b.drop nn, n, e⟩ rfl
            hr.symm (by simp [hzero]) (by omega) (fun h => absurd h herr)
            (fun _ h _ => absurd h herr) (Or.inr (Or.inr hzero)) (fun _ => rfl)⟩
        · rw [if_neg herr, if_pos hzero]
          exact ⟨_, _, _, rfl, Write_single_call_spec sys b k nn _ _ ⟨b.drop nn, n, e⟩ rfl
            hr.symm (by simp [hzero]) (by omega) (fun h => by simp at h)
            (fun _ _ _ => rfl) (Or.inr (Or.inr hzero))
            (fun h => by
              rcases h with h | h
              · simp only [hzero, Int.toNat_zero, Nat.add_zero] at h
                exact absurd h hdone
              · exact absurd h herr)⟩

/-- C12: let `sys k buf` be the result `(n, err)` of the `k`-th call of the write system call,
which is given `buf`, with `0 ≤ n ≤ len(buf)`. Then `tun.Write(b)` returns, within
`len(b) + 1` rounds of its loop (any fuel from `len(b) + 1` on gives a return, never a panic),
after at least one and at most `len(b) + 1` system calls. The `i`-th call is given exactly
the suffix of `b` after the bytes written by the calls before it and gets the result `sys i`.
The loop goes on until done: a call that writes some bytes without error and leaves bytes
unwritten is followed by another call. It stops in three ways only: a call after which every
byte is written, or a call that reports an error, is the last one and the return is the
count written so far with the error of that call; a call that writes zero bytes without
error while bytes remain is the last one and the return is the count written so far with
`io.ErrUnexpectedEOF`. The returned count is the number of bytes written by all the calls,
and when the returned error is nil it is `len(b)`. -/
theorem Write_loops_until_done (sys : Nat → List Nat → Int × Option tun.TunErr)
    (b : List Nat) (fuel : Nat)
    (hsys : ∀ i buf, 0 ≤ (sys i buf).1 ∧ (sys i buf).1 ≤ buf.length)
    (hfuel : b.length + 1 ≤ fuel) :
    ∃ count err calls,
      tun.Write sys b fuel = some (.returned count err calls)
      ∧ calls.length ≤ b.length + 1
      ∧ (∀ i c, calls[i]? = some c →
          c.buf = b.drop (tun.written (calls.take i)) ∧ (c.n, c.err) = sys i c.buf)
      ∧ count = tun.written calls
      ∧ (err = none → count = b.length)
      ∧ (∀ i c, calls[i]? = some c → c.n = 0 → c.err = none →
          tun.written (calls.take i) ≠ b.length →
          i + 1 = calls.length ∧ err = some tun.TunErr.ErrUnexpectedEOF
            ∧ count = tun.written (calls.take i))
      ∧ 1 ≤ calls.length
      ∧ (∀ i c, calls[i]? = some c → 0 < c.n → c.err = none →
          tun.written (calls.take (i + 1)) ≠ b.length → i + 1 < calls.length)
      ∧ (∀ i c, calls[i]? = some c →
          tun.written (calls.take (i + 1)) = b.length ∨ c.err ≠ none →
          i + 1 = calls.length ∧ err = c.err
            ∧ count = tun.written (calls.take (i + 1))) := by
  obtain ⟨count, err, calls, hrun, hone, hcalls, hcount, _, hnil, hall⟩ :=
    Write_loop_spec sys b hsys fuel 0 0 (Nat.zero_le _) (by omega)
  refine ⟨count, err, calls, hrun, by omega, ?_, by omega, hnil, ?_, hone, ?_, ?_⟩
  · intro i c hc
    obtain ⟨hbuf, hs, _⟩ := hall i c hc
    simp only [Nat.zero_add] at hbuf hs
    exact ⟨hbuf, hs⟩
  · intro i c hc hn0 hnone hnot
    obtain ⟨_, _, heof, _⟩ := hall i c hc
    simp only [Nat.zero_add] at heof
    exact heof hn0 hnone hnot
  · intro i c hc hpos hnone hnot
    obtain ⟨_, _, _, hcont, _⟩ := hall i c hc
    simp only [Nat.zero_add] at hcont
    exact hcont hpos hnone hnot
  · intro i c hc h
    obtain ⟨_, _, _, _, hstop⟩ := hall i c hc
    simp only [Nat.zero_add] at hstop
    exact hstop h

/-- C12, witness: five bytes written through a system call that takes two bytes at a time:
three calls, on `[1,2,3,4,5]`, `[3,4,5]` and `[5]`, and the return `(5, nil)`. -/
theorem Write_loops_until_done_witness :
    tun.Write tun.twoBytesWrite [1, 2, 3, 4, 5] 6 =
        some (.returned 5 none
          [{ buf := [1, 2, 3, 4, 5], n := 2, err := none },
           { buf := [3, 4, 5], n := 2, err := none },
           { buf := [5], n := 1, err := none }])
    ∧ ∃ count err calls,
      tun.Write tun.twoBytesWrite [1, 2, 3, 4, 5] 6 = some (.returned count err calls)
      ∧ calls.length ≤ [1, 2, 3, 4, 5].length + 1
      ∧ (∀ i c, calls[i]? = some c →
          c.buf = [1, 2, 3, 4, 5].drop (tun.written (calls.take i))
          ∧ (c.n, c.err) = tun.twoBytesWrite i c.buf)
      ∧ count = tun.written calls
      ∧ (err = none → count = [1, 2, 3, 4, 5].length)
      ∧ (∀ i c, calls[i]? = some c → c.n = 0 → c.err = none →
          tun.written (calls.take i) ≠ [1, 2, 3, 4, 5].length →
          i + 1 = calls.length ∧ err = some tun.TunErr.ErrUnexpectedEOF
            ∧ count = tun.written (calls.take i))
      ∧ 1 ≤ calls.length
      ∧ (∀ i c, calls[i]? = some c → 0 < c.n → c.err = none →
          tun.written (calls.take (i + 1)) ≠ [1, 2, 3, 4, 5].length → i + 1 < calls.length)
      ∧ (∀ i c, calls[i]? = some c →
          tun.written (calls.take (i + 1)) = [1, 2, 3, 4, 5].length ∨ c.err ≠ none →
          i + 1 = calls.length ∧ err = c.err
            ∧ count = tun.written (calls.take (i + 1))) :=
  ⟨by decide,
   Write_loops_until_done tun.twoBytesWrite [1, 2, 3, 4, 5] 6
    (fun _ buf => by simp only [tun.twoBytesWrite]; omega) (by decide)⟩

theorem Write_stalled_example :
    tun.Write tun.stallingWrite [1, 2, 3, 4, 5] 6 =
      some (.returned 2 (some tun.TunErr.ErrUnexpectedEOF)
        [{ buf := [1, 2, 3, 4, 5], n := 2, err := none },
         { buf := [3, 4, 5], n := 0, err := none }]) := by
  decide

end Nexus
